import Mathlib

set_option linter.unusedVariables false

/-!
Shallow embedding of the Topic-Map-Generator core pipeline:

* the schema validator (`src/models/topic_map.py`: `validate_entry`,
  `validate_topic_map`), and
* the generation orchestrator (`src/services/ai_service.py`:
  `_clean_json_response`, `_parse_json`, `generate_topic_map`), including
  the JSON decoding (`json.loads`) it relies on.

Modelled fragment of Python/JSON values: strings, integers, arrays,
objects and null.  Booleans and floating-point numbers are outside the
modelled fragment (no claim exercises them), and string handling is over
ASCII whitespace.  Python dicts are association lists with unique keys,
as produced by the object parser below (later duplicate keys overwrite
earlier ones, as in `json.loads`).
-/

/-- A JSON value as handled by the pipeline. -/
inductive JVal where
  | null : JVal
  | str (s : String) : JVal
  | int (n : Int) : JVal
  | list (xs : List JVal) : JVal
  | obj (kvs : List (String × JVal)) : JVal
deriving Repr

/-- A Python dict as used for topic-map entries. -/
abbrev Entry := List (String × JVal)

mutual

/-- Structural (Python `==`) equality on modelled JSON values. -/
def JVal.beq : JVal → JVal → Bool
  | .null, .null => true
  | .str a, .str b => a == b
  | .int a, .int b => a == b
  | .list as, .list bs => JVal.beqL as bs
  | .obj as, .obj bs => JVal.beqO as bs
  | _, _ => false

def JVal.beqL : List JVal → List JVal → Bool
  | [], [] => true
  | a :: as, b :: bs => JVal.beq a b && JVal.beqL as bs
  | _, _ => false

def JVal.beqO : List (String × JVal) → List (String × JVal) → Bool
  | [], [] => true
  | (k, v) :: as, (k', v') :: bs => k == k' && JVal.beq v v' && JVal.beqO as bs
  | _, _ => false

end

mutual

theorem JVal.beq_iff : ∀ a b : JVal, JVal.beq a b = true ↔ a = b
  | .null, b => by cases b <;> simp [JVal.beq]
  | .str s, b => by cases b <;> simp [JVal.beq]
  | .int n, b => by cases b <;> simp [JVal.beq]
  | .list as, b => by
      cases b <;> simp [JVal.beq]
      exact JVal.beqL_iff as _
  | .obj as, b => by
      cases b <;> simp [JVal.beq]
      exact JVal.beqO_iff as _

theorem JVal.beqL_iff : ∀ as bs : List JVal, JVal.beqL as bs = true ↔ as = bs
  | [], bs => by cases bs <;> simp [JVal.beqL]
  | a :: as, [] => by simp [JVal.beqL]
  | a :: as, b :: bs => by
      simp [JVal.beqL, Bool.and_eq_true, JVal.beq_iff a b, JVal.beqL_iff as bs]

theorem JVal.beqO_iff : ∀ as bs : List (String × JVal), JVal.beqO as bs = true ↔ as = bs
  | [], bs => by cases bs <;> simp [JVal.beqO]
  | a :: as, [] => by simp [JVal.beqO]
  | (k, v) :: as, (k', v') :: bs => by
      simp [JVal.beqO, Bool.and_eq_true, JVal.beq_iff v v', JVal.beqO_iff as bs,
        Prod.ext_iff, and_assoc]

end

instance : DecidableEq JVal := fun a b =>
  decidable_of_iff (JVal.beq a b = true) (JVal.beq_iff a b)

/-! ### Python dict operations -/

/-- `d[k]`-style lookup returning an `Option`. -/
def dLookup (e : Entry) (k : String) : Option JVal :=
  match e with
  | [] => none
  | (k', v) :: rest => if k' = k then some v else dLookup rest k

/-- Python `k in d`. -/
def hasKey (e : Entry) (k : String) : Bool := (dLookup e k).isSome

/-- Python `d.get(k, default)` (also used for `d[k]` at places where the
key is known to be present). -/
def dGetD (e : Entry) (k : String) (d : JVal) : JVal := (dLookup e k).getD d

/-- Dict insertion with overwrite, as `json.loads` builds objects
(a later duplicate key replaces the earlier binding). -/
def dInsert (e : Entry) (k : String) (v : JVal) : Entry :=
  match e with
  | [] => [(k, v)]
  | (k', v') :: rest => if k' = k then (k, v) :: rest else (k', v') :: dInsert rest k v

/-! ### Python string helpers (ASCII whitespace) -/

/-- ASCII whitespace, as recognised by Python `str.strip` and the `\s`
class of the cleaning regexes (restricted to ASCII). -/
def isPySpace (c : Char) : Bool :=
  c = ' ' || c = '\t' || c = '\n' || c = '\r' || c = '\x0b' || c = '\x0c'

def ofChars (cs : List Char) : String := ⟨cs⟩

theorem str_ext {s t : String} (h : s.data = t.data) : s = t := by
  cases s; cases t; exact congrArg String.mk h

/-- Python `s.strip()`. -/
def pyStrip (s : String) : String :=
  ofChars (((s.data.dropWhile isPySpace).reverse.dropWhile isPySpace).reverse)

/-- Python `s.rstrip()`. -/
def pyRstrip (s : String) : String :=
  ofChars ((s.data.reverse.dropWhile isPySpace).reverse)

/-- Python `s[:n]` for `n ≥ 0`. -/
def pyTake (s : String) (n : Nat) : String := ofChars (s.data.take n)

/-- Python `s[-n:]` for `n > 0`. -/
def pyTakeRight (s : String) (n : Nat) : String :=
  ofChars (s.data.drop (s.data.length - n))

/-- Index of the last occurrence of `c`, if any. -/
def lastIdx (c : Char) : List Char → Option Nat
  | [] => none
  | x :: xs =>
    match lastIdx c xs with
    | some i => some (i + 1)
    | none => if x = c then some 0 else none

/-- Python `s.rfind(c)`: last index of `c`, or `-1`. -/
def pyRfind (s : String) (c : Char) : Int :=
  match lastIdx c s.data with
  | some i => (i : Int)
  | none => -1

/-- Python substring test `pat in s`, on char lists. -/
def subIn (pat : List Char) : List Char → Bool
  | [] => pat.isEmpty
  | a :: t => pat.isPrefixOf (a :: t) || subIn pat t

/-- Python `pat in s` on strings. -/
def strIn (pat s : String) : Bool := subIn pat.data s.data

/-- The claim-level notion of one string containing another. -/
def ContainsSub (pat s : String) : Prop := ∃ l r, s.data = l ++ pat.data ++ r

theorem isPrefixOf_iff_exists {α : Type} [DecidableEq α] :
    ∀ pat l : List α, pat.isPrefixOf l = true ↔ ∃ r, l = pat ++ r
  | [], l => by simp [List.isPrefixOf]
  | a :: as, [] => by simp [List.isPrefixOf]
  | a :: as, b :: bs => by
    simp only [List.isPrefixOf, Bool.and_eq_true, beq_iff_eq,
      isPrefixOf_iff_exists as bs, List.cons_append, List.cons.injEq]
    constructor
    · rintro ⟨rfl, r, rfl⟩; exact ⟨r, rfl, rfl⟩
    · rintro ⟨r, rfl, rfl⟩; exact ⟨rfl, r, rfl⟩

theorem subIn_iff (pat : List Char) :
    ∀ l : List Char, subIn pat l = true ↔ ∃ pre post, l = pre ++ pat ++ post
  | [] => by
    constructor
    · intro h
      simp [subIn, List.isEmpty_iff] at h
      exact ⟨[], [], by simp [h]⟩
    · rintro ⟨pre, post, h⟩
      have h2 : (pre ++ pat) ++ post = [] := by simpa using h.symm
      have h3 := List.append_eq_nil.mp h2
      have h4 := List.append_eq_nil.mp h3.1
      simp [subIn, h4.2]
  | a :: t => by
    simp only [subIn, Bool.or_eq_true, isPrefixOf_iff_exists, subIn_iff pat t]
    constructor
    · rintro (⟨r, hr⟩ | ⟨pre, post, h⟩)
      · exact ⟨[], r, by simpa using hr⟩
      · exact ⟨a :: pre, post, by simp [h]⟩
    · rintro ⟨pre, post, h⟩
      cases pre with
      | nil => exact Or.inl ⟨post, by simpa using h⟩
      | cons x xs =>
        right
        refine ⟨xs, post, ?_⟩
        have h' : a :: t = x :: (xs ++ pat ++ post) := by simpa using h
        injection h' with _ h2

theorem strIn_iff (pat s : String) : strIn pat s = true ↔ ContainsSub pat s := by
  unfold strIn ContainsSub
  exact subIn_iff pat.data s.data

/-! ### Python `str()` rendering of modelled values -/

/-- A single-quote character, used by Python `repr` of strings. -/
def sqc : String := ofChars ['\'']

/-- `quoted s` is `'s'` as rendered inside Python f-strings and reprs. -/
def quoted (s : String) : String := sqc ++ s ++ sqc

mutual

/-- Python `repr` of a modelled value (string escaping inside reprs is not
modelled; no validated message depends on it). -/
def pyRepr : JVal → String
  | .null => "None"
  | .str s => quoted s
  | .int n => toString n
  | .list xs => "[" ++ pyReprL xs ++ "]"
  | .obj kvs => "\x7b" ++ pyReprO kvs ++ "\x7d"

def pyReprL : List JVal → String
  | [] => ""
  | [x] => pyRepr x
  | x :: y :: xs => pyRepr x ++ ", " ++ pyReprL (y :: xs)

def pyReprO : List (String × JVal) → String
  | [] => ""
  | [(k, v)] => quoted k ++ ": " ++ pyRepr v
  | (k, v) :: y :: xs => quoted k ++ ": " ++ pyRepr v ++ ", " ++ pyReprO (y :: xs)

end

/-- Python `str()` / f-string interpolation of a modelled value. -/
def pyStr : JVal → String
  | .str s => s
  | v => pyRepr v

/-! ### `_clean_json_response` (ai_service.py lines 24-33) -/

/-- Effect of `re.sub(r"^```(?:json)?\s*\n?", "", text)`:
remove a leading code fence (optionally tagged `json`) and the
whitespace run after it. -/
def stripFenceFront (cs : List Char) : List Char :=
  match cs with
  | '\x60' :: '\x60' :: '\x60' :: rest =>
    (match rest with
     | 'j' :: 's' :: 'o' :: 'n' :: r => r
     | _ => rest).dropWhile isPySpace
  | _ => cs

/-- Effect of `re.sub(r"\n?```\s*$", "", text)` on a string with no
trailing whitespace: remove a trailing code fence and the newline
just before it. -/
def stripFenceBack (cs : List Char) : List Char :=
  match cs.reverse with
  | '\x60' :: '\x60' :: '\x60' :: '\n' :: rest => rest.reverse
  | '\x60' :: '\x60' :: '\x60' :: rest => rest.reverse
  | _ => cs

/-- Effect of `re.sub(r",\s*([\]}])", r"\1", text)`: drop a comma that is
followed (up to whitespace) by a closing bracket or brace, scanning
left to right. -/
def stripCommasAux : Nat → List Char → List Char
  | 0, cs => cs
  | _ + 1, [] => []
  | f + 1, ',' :: rest =>
    (match rest.dropWhile isPySpace with
     | c :: rest' =>
       if c = ']' || c = '\x7d' then c :: stripCommasAux f rest'
       else ',' :: stripCommasAux f rest
     | [] => ',' :: rest)
  | f + 1, c :: rest => c :: stripCommasAux f rest

def stripCommas (s : String) : String :=
  ofChars (stripCommasAux (s.data.length + 1) s.data)

/-- `_clean_json_response`: strip, remove markdown fences, strip, remove
trailing commas before `]` or `}`. -/
def clean_json_response (text : String) : String :=
  let t1 := pyStrip text
  let t2 := pyStrip (ofChars (stripFenceBack (stripFenceFront t1.data)))
  stripCommas t2

/-! ### `json.loads` on the modelled fragment -/

/-- JSON whitespace skipped by the decoder. -/
def jskip (cs : List Char) : List Char :=
  cs.dropWhile (fun c => c = ' ' || c = '\t' || c = '\n' || c = '\r')

/-- Value of a recognised single-character string escape. -/
def escChar (e : Char) : Option Char :=
  if e = '"' then some '"'
  else if e = '\\' then some '\\'
  else if e = '/' then some '/'
  else if e = 'n' then some '\n'
  else if e = 't' then some '\t'
  else if e = 'r' then some '\r'
  else if e = 'b' then some '\x08'
  else if e = 'f' then some '\x0c'
  else none

/-- Parse the body of a JSON string after the opening quote. -/
def parseStrChars : Nat → List Char → Except String (List Char × List Char)
  | 0, _ => .error "Unterminated string"
  | _ + 1, [] => .error "Unterminated string"
  | f + 1, c :: rest =>
    if c = '"' then .ok ([], rest)
    else if c = '\\' then
      match rest with
      | [] => .error "Unterminated string"
      | e :: rest' =>
        match escChar e with
        | some ec => do
            let (s, r) ← parseStrChars f rest'
            .ok (ec :: s, r)
        | none => .error "Invalid escape"
    else if c.toNat < 32 then .error "Invalid control character"
    else do
      let (s, r) ← parseStrChars f rest
      .ok (c :: s, r)

def natOfDigits (ds : List Char) : Int :=
  ds.foldl (fun acc c => acc * 10 + ((c.toNat : Int) - 48)) 0

/-- Parse a JSON integer literal (digits after an optional sign; a
leading `0` matches only itself, as in the JSON number grammar). -/
def parseIntDigits (cs : List Char) : Except String (Int × List Char) :=
  match cs with
  | c :: rest =>
    if c = '0' then .ok (0, rest)
    else if c.isDigit then
      .ok (natOfDigits ((c :: rest).takeWhile Char.isDigit),
           (c :: rest).dropWhile Char.isDigit)
    else .error "Expecting value"
  | [] => .error "Expecting value"

/-- Left-to-right dict construction (later duplicate keys overwrite). -/
def buildDict (pairs : List (String × JVal)) : Entry :=
  pairs.foldl (fun d p => dInsert d p.1 p.2) []

mutual

/-- Parse one JSON value (strict decoder on the modelled fragment). -/
def parseV : Nat → List Char → Except String (JVal × List Char)
  | 0, _ => .error "Expecting value"
  | f + 1, cs =>
    match jskip cs with
    | [] => .error "Expecting value"
    | '"' :: rest => do
        let (s, r) ← parseStrChars (rest.length + 1) rest
        .ok (.str (ofChars s), r)
    | '[' :: rest => do
        let (xs, r) ← parseElems f rest
        .ok (.list xs, r)
    | '\x7b' :: rest => do
        let (kvs, r) ← parseMembers f rest
        .ok (.obj (buildDict kvs), r)
    | 'n' :: 'u' :: 'l' :: 'l' :: rest => .ok (.null, rest)
    | '-' :: rest => do
        let (n, r) ← parseIntDigits rest
        .ok (.int (-n), r)
    | c :: rest =>
        if c.isDigit then do
          let (n, r) ← parseIntDigits (c :: rest)
          .ok (.int n, r)
        else .error "Expecting value"

/-- Parse array elements after `[`. -/
def parseElems : Nat → List Char → Except String (List JVal × List Char)
  | 0, _ => .error "Expecting value"
  | f + 1, cs =>
    match jskip cs with
    | ']' :: rest => .ok ([], rest)
    | cs' => parseElemsLoop f cs'

/-- Parse `value (, value)* ]`. -/
def parseElemsLoop : Nat → List Char → Except String (List JVal × List Char)
  | 0, _ => .error "Expecting value"
  | f + 1, cs => do
    let (v, r) ← parseV f cs
    match jskip r with
    | ',' :: rest => do
        let (vs, r') ← parseElemsLoop f rest
        .ok (v :: vs, r')
    | ']' :: rest => .ok ([v], rest)
    | _ => .error "Expecting delimiter"

/-- Parse object members after `{`. -/
def parseMembers : Nat → List Char → Except String (List (String × JVal) × List Char)
  | 0, _ => .error "Expecting value"
  | f + 1, cs =>
    match jskip cs with
    | '\x7d' :: rest => .ok ([], rest)
    | cs' => parseMembersLoop f cs'

/-- Parse `"key": value (, "key": value)* }`. -/
def parseMembersLoop : Nat → List Char → Except String (List (String × JVal) × List Char)
  | 0, _ => .error "Expecting value"
  | f + 1, cs =>
    match jskip cs with
    | '"' :: rest => do
        let (k, r) ← parseStrChars (rest.length + 1) rest
        match jskip r with
        | ':' :: r2 => do
            let (v, r3) ← parseV f r2
            (match jskip r3 with
             | ',' :: r4 => do
                 let (kvs, r5) ← parseMembersLoop f r4
                 .ok ((ofChars k, v) :: kvs, r5)
             | '\x7d' :: r4 => .ok ([(ofChars k, v)], r4)
             | _ => .error "Expecting delimiter")
        | _ => .error "Expecting colon delimiter"
    | _ => .error "Expecting property name"

end

/-- Strict decode of a whole text, as `json.loads`. -/
def json_loads (s : String) : Except String JVal :=
  match parseV (4 * s.data.length + 16) s.data with
  | .ok (v, rest) => if (jskip rest).isEmpty then .ok v else .error "Extra data"
  | .error e => .error e

/-- `_parse_json`: clean, decode, and keep only list results. -/
def parse_json (text : String) : Option (List JVal) :=
  match json_loads (clean_json_response text) with
  | .ok (.list xs) => some xs
  | _ => none

example : json_loads "[\x7b\"a\":1\x7d]" = .ok (.list [.obj [("a", .int 1)]]) := rfl
example : json_loads " [1, -2, null, \"x\"] " =
    .ok (.list [.int 1, .int (-2), .null, .str "x"]) := rfl
example : json_loads "[1,]" = .error "Expecting value" := rfl
example : json_loads "" = .error "Expecting value" := rfl
example : json_loads "\x7b\"a\":1,\"a\":2\x7d" = .ok (.obj [("a", .int 2)]) := rfl
example :
    clean_json_response "\x60\x60\x60json\n[\x7b\"a\":1\x7d,]\n\x60\x60\x60" =
      "[\x7b\"a\":1\x7d]" := rfl
example : parse_json "\x60\x60\x60json\n[\x7b\"a\":1\x7d,]\n\x60\x60\x60" =
    some [.obj [("a", .int 1)]] := rfl

/-! ### Schema validator (`src/models/topic_map.py`) -/

/-- The distinct failure modes of `generate_topic_map`, one per `raise`
site (each `ValueError` message in the source is fixed per site, so the
constructor identifies the failing phase; `indexError` is the unhandled
`IndexError` of the truncation check, and `typeError` an unhandled
`TypeError` inside validation: a non-dict entry, or an unhashable value
at one of the set-membership tests). -/
inductive PyErr where
  | configError : PyErr
  | parseError : PyErr
  | emptyResult : PyErr
  | typeError : PyErr
  | validationError (critical10 : List String) : PyErr
  | indexError : PyErr
deriving DecidableEq, Repr

def required_fields : List String :=
  ["level", "content_title", "primary_keyword", "user_intent",
   "semantic_entities", "content_type", "rag_directions", "paa_questions",
   "citations", "parent_topic", "priority_score", "word_count_range",
   "internal_link_targets"]

/-- Membership of a *hashable* value in the `VALID_LEVELS` set of
strings (a hashable non-string value equals no element).  For an
unhashable value (list/dict) CPython raises `TypeError` at the set test;
that crash is modelled in `validate_entryE`, which consults this
function only behind a hashability guard. -/
def levelMem (v : JVal) : Bool :=
  match v with
  | .str s => s = "Pillar" || s = "Cluster" || s = "Spoke"
  | _ => false

/-- Membership of a *hashable* value in the `VALID_INTENTS` set of
strings (see `levelMem` for the unhashable `TypeError` case, modelled in
`validate_entryE`). -/
def intentMem (v : JVal) : Bool :=
  match v with
  | .str s =>
    s = "Informational" || s = "Navigational" ||
    s = "Commercial Investigation" || s = "Transactional"
  | _ => false

/-- Rendering of the `VALID_LEVELS` set in the error message (CPython set
iteration order is unspecified; insertion order is used here, and no claim
depends on this text). -/
def VALID_LEVELS_REPR : String :=
  "\x7b" ++ quoted "Pillar" ++ ", " ++ quoted "Cluster" ++ ", " ++
    quoted "Spoke" ++ "\x7d"

def VALID_INTENTS_REPR : String :=
  "\x7b" ++ quoted "Informational" ++ ", " ++ quoted "Navigational" ++ ", " ++
    quoted "Commercial Investigation" ++ ", " ++ quoted "Transactional" ++ "\x7d"

/-- Messages from `if f not in entry: errors.append(...)` over the
required fields. -/
def missingFieldErrors (entry : Entry) : List String :=
  required_fields.filterMap fun f =>
    if hasKey entry f then none else some ("Missing required field: " ++ f)

/-- `entry["level"] not in VALID_LEVELS` check. -/
def levelErrors (entry : Entry) : List String :=
  let v := dGetD entry "level" JVal.null
  if levelMem v then []
  else ["Invalid level " ++ quoted (pyStr v) ++ ". Must be one of: " ++ VALID_LEVELS_REPR]

/-- `entry["user_intent"] not in VALID_INTENTS` check. -/
def intentErrors (entry : Entry) : List String :=
  let v := dGetD entry "user_intent" JVal.null
  if intentMem v then []
  else ["Invalid user_intent " ++ quoted (pyStr v) ++ ". Must be one of: " ++
          VALID_INTENTS_REPR]

/-- `score = entry.get("priority_score", 0)` followed by
`not isinstance(score, int) or score < 1 or score > 5`. -/
def scoreErrors (entry : Entry) : List String :=
  let score := dGetD entry "priority_score" (JVal.int 0)
  let msg := "Invalid priority_score " ++ quoted (pyStr score) ++
    ". Must be integer 1-5"
  match score with
  | .int n => if n < 1 ∨ 5 < n then [msg] else []
  | _ => [msg]

/-- `entities = entry.get("semantic_entities", [])` length check. -/
def entitiesErrors (entry : Entry) : List String :=
  match dGetD entry "semantic_entities" (JVal.list []) with
  | .list xs =>
    if xs.length < 3 ∨ 5 < xs.length then
      ["semantic_entities must have 3-5 items, got " ++ toString xs.length]
    else []
  | _ => ["semantic_entities must have 3-5 items, got non-list"]

/-- `paa = entry.get("paa_questions", [])` length check. -/
def paaErrors (entry : Entry) : List String :=
  match dGetD entry "paa_questions" (JVal.list []) with
  | .list xs =>
    if xs.length < 2 then
      ["paa_questions must have at least 2 items, got " ++ toString xs.length]
    else []
  | _ => ["paa_questions must have at least 2 items, got non-list"]

/-- `citations = entry.get("citations", [])` length check. -/
def citationsErrors (entry : Entry) : List String :=
  match dGetD entry "citations" (JVal.list []) with
  | .list xs =>
    if xs.length < 1 then
      ["citations must have at least 1 item, got " ++ toString xs.length]
    else []
  | _ => ["citations must have at least 1 item, got non-list"]

/-- The message list computed by `validate_entry` (topic_map.py lines
49-108) when it completes: the field-presence messages, and when all
fields are present, the value checks in source order.  The `TypeError`
CPython raises at the level/user_intent set tests is modelled on top of
this in `validate_entryE`, which equals `.ok` of this function exactly
on the crash-free inputs (`validate_entryE_ok_eq`). -/
def validate_entry (entry : Entry) : List String :=
  let missing := missingFieldErrors entry
  if missing.isEmpty then
    levelErrors entry ++ intentErrors entry ++ scoreErrors entry ++
      entitiesErrors entry ++ paaErrors entry ++ citationsErrors entry
  else missing

/-- Message prefix `f"Entry {i} ({entry.get('content_title', 'unknown')}): "`. -/
def entryMsg (i : Nat) (entry : Entry) (err : String) : String :=
  "Entry " ++ toString i ++ " (" ++
    pyStr (dGetD entry "content_title" (JVal.str "unknown")) ++ "): " ++ err

/-- The `for i, entry in enumerate(entries)` loop of `validate_topic_map`,
starting at index `i`. -/
def perEntryErrorsFrom (i : Nat) : List Entry → List String
  | [] => []
  | e :: es => (validate_entry e).map (entryMsg i e) ++ perEntryErrorsFrom (i + 1) es

def perEntryErrors (entries : List Entry) : List String := perEntryErrorsFrom 0 entries

/-- `e["level"] == "Pillar"` (and the analogous Cluster/Spoke filters). -/
def levelIs (name : String) (e : Entry) : Bool :=
  match dGetD e "level" JVal.null with
  | .str s => s = name
  | _ => false

/-- Python truthiness of a modelled value (`if parent`). -/
def truthy (v : JVal) : Bool :=
  match v with
  | .null => false
  | .str s => s ≠ ""
  | .int n => n ≠ 0
  | .list xs => ¬ xs.isEmpty
  | .obj kvs => ¬ kvs.isEmpty

/-- `parent = cluster.get("parent_topic", "")`. -/
def parentOf (e : Entry) : JVal := dGetD e "parent_topic" (JVal.str "")

/-- `c["content_title"]` as used for the Pillar title and cluster-title
set (guarded by the per-entry checks, the key is always present there). -/
def titleOf (e : Entry) : JVal := dGetD e "content_title" JVal.null

/-- The Cluster-parent mismatch messages (topic_map.py lines 137-143). -/
def clusterParentErrors (clusters : List Entry) (pillar_title : JVal) : List String :=
  clusters.filterMap fun c =>
    let parent := parentOf c
    if truthy parent ∧ parent ≠ pillar_title then
      some ("Cluster " ++ quoted (pyStr (titleOf c)) ++ " parent_topic " ++
        quoted (pyStr parent) ++ " does not match Pillar title " ++
        quoted (pyStr pillar_title))
    else none

/-- The Spoke-parent mismatch messages (topic_map.py lines 145-151). -/
def spokeParentErrors (spokes : List Entry) (cluster_titles : List JVal) : List String :=
  spokes.filterMap fun s =>
    let parent := parentOf s
    if truthy parent ∧ parent ∉ cluster_titles then
      some ("Spoke " ++ quoted (pyStr (titleOf s)) ++ " parent_topic " ++
        quoted (pyStr parent) ++ " does not match any Cluster title")
    else none

/-- The message list computed by `validate_topic_map` (topic_map.py
lines 111-153) when it completes without an exception.  The faithful
embedding of the source function is `validate_topic_mapE` below, which
also models the `TypeError` crashes and equals `.ok` of this function
exactly on the crash-free inputs (`validate_topic_mapE_ok_eq`). -/
def validate_topic_map (entries : List Entry) : List String :=
  let errors := perEntryErrors entries
  if errors.isEmpty then
    let pillars := entries.filter (levelIs "Pillar")
    let clusters := entries.filter (levelIs "Cluster")
    let spokes := entries.filter (levelIs "Spoke")
    match pillars with
    | [pillar] =>
      clusterParentErrors clusters (titleOf pillar) ++
        spokeParentErrors spokes (clusters.map titleOf)
    | _ => ["Expected exactly 1 Pillar, found " ++ toString pillars.length]
  else errors

/-- CPython hashability of a modelled value: strings, ints and `None`
are hashable, lists and dicts are not. -/
def hashable (v : JVal) : Bool :=
  match v with
  | .list _ => false
  | .obj _ => false
  | _ => true

/-- `validate_entry` as run by CPython: with all fields present, the
`entry["level"] not in VALID_LEVELS` test (line 74) raises `TypeError`
when the level value is unhashable, and otherwise the
`entry["user_intent"] not in VALID_INTENTS` test (line 79) raises
`TypeError` when the intent value is unhashable.  An exception discards
any messages already appended. -/
def validate_entryE (entry : Entry) : Except PyErr (List String) :=
  if (missingFieldErrors entry).isEmpty then
    if hashable (dGetD entry "level" JVal.null) = false then .error PyErr.typeError
    else if hashable (dGetD entry "user_intent" JVal.null) = false then
      .error PyErr.typeError
    else
      .ok (levelErrors entry ++ intentErrors entry ++ scoreErrors entry ++
        entitiesErrors entry ++ paaErrors entry ++ citationsErrors entry)
  else .ok (missingFieldErrors entry)

/-- The `for i, entry in enumerate(entries)` loop of
`validate_topic_map`, with exception propagation: the loop runs over all
entries, and a `TypeError` at any entry discards all collected
messages. -/
def perEntryErrorsFromE (i : Nat) : List Entry → Except PyErr (List String)
  | [] => .ok []
  | e :: es =>
    match validate_entryE e with
    | .error err => .error err
    | .ok errs =>
      match perEntryErrorsFromE (i + 1) es with
      | .error err => .error err
      | .ok rest => .ok (errs.map (entryMsg i e) ++ rest)

/-- `validate_topic_map` (topic_map.py lines 111-153) as run by CPython,
with the `TypeError` crashes: in the per-entry loop (see
`validate_entryE`); at the `cluster_titles` set comprehension (line 135)
when some Cluster's content_title is unhashable; and in the spoke loop
(line 147) when some Spoke's truthy parent_topic is unhashable at the
`parent not in cluster_titles` test.  An exception discards all
messages, so the crash conditions are checked before the surviving
message list is assembled. -/
def validate_topic_mapE (entries : List Entry) : Except PyErr (List String) :=
  match perEntryErrorsFromE 0 entries with
  | .error err => .error err
  | .ok errors =>
    if errors.isEmpty then
      let pillars := entries.filter (levelIs "Pillar")
      let clusters := entries.filter (levelIs "Cluster")
      let spokes := entries.filter (levelIs "Spoke")
      match pillars with
      | [pillar] =>
        if (clusters.all fun c => hashable (titleOf c)) = false then
          .error PyErr.typeError
        else if (spokes.all fun s => !truthy (parentOf s) || hashable (parentOf s))
            = false then
          .error PyErr.typeError
        else
          .ok (clusterParentErrors clusters (titleOf pillar) ++
            spokeParentErrors spokes (clusters.map titleOf))
      | _ => .ok ["Expected exactly 1 Pillar, found " ++ toString pillars.length]
    else .ok errors

/-! ### Generation orchestrator (`src/services/ai_service.py`) -/

/-- One LLM invocation issued by the orchestrator (all share the fixed
system prompt; the constructor records which call site and the user
message). -/
inductive Call where
  | initial (userPrompt : String) : Call
  | fix (userPrompt : String) : Call
  | cont (userPrompt : String) : Call
deriving DecidableEq, Repr

/-- `JSON_FIX_PROMPT.format(error=..., output=...)`
(topic_map_prompts.py lines 106-111). -/
def fixPromptOf (error output : String) : String :=
  "The following JSON was returned but failed to parse. Please fix it so it is valid JSON. Return ONLY the corrected JSON array with no markdown fences or commentary.\n\nError: "
    ++ error ++ "\n\nOriginal output:\n" ++ output

/-- `CONTINUATION_PROMPT.format(last_chunk=...)`
(topic_map_prompts.py lines 113-116). -/
def contPromptOf (last_chunk : String) : String :=
  "The previous response was truncated. Continue the JSON array from exactly where it left off. Do NOT repeat any entries already generated. Output ONLY the continuation of the JSON array, starting from the next entry and ending with the closing bracket ].\n\nPrevious output ended with:\n"
    ++ last_chunk

/-- `SCOPE_FOCUSED` (config/settings.py line 34). -/
def SCOPE_FOCUSED : String := "Focused (15-25 topics)"

/-- Python `x or default` on strings. -/
def orDefault (s d : String) : String := if s = "" then d else s

/-- `TOPIC_MAP_USER_PROMPT.format(...)`
(topic_map_prompts.py lines 66-104). -/
def format_user_prompt (topic scope industry audience geo_focus competitors
    existing_content compiled_research topic_count_guidance : String) : String :=
  "## Input\n\n**Topic:** " ++ topic ++
  "\n**Scope:** " ++ scope ++
  "\n**Industry/Niche:** " ++ industry ++
  "\n**Target Audience:** " ++ audience ++
  "\n**Geographic Focus:** " ++ geo_focus ++
  "\n**Competitors:** " ++ competitors ++
  "\n**Existing Content to Exclude:** " ++ existing_content ++
  "\n\n## Research Data\n\n" ++ compiled_research ++
  "\n\n## Instructions\n\nBased on the research data above, generate a complete topical map as a JSON array. Each element must have these exact keys:\n\n\x60\x60\x60json\n\x7b\n  \"level\": \"Pillar|Cluster|Spoke\",\n  \"content_title\": \"SEO-optimized title\",\n  \"primary_keyword\": \"main target keyword\",\n  \"user_intent\": \"Informational|Navigational|Commercial Investigation|Transactional\",\n  \"semantic_entities\": [\"entity1\", \"entity2\", \"entity3\", \"entity4\", \"entity5\"],\n  \"content_type\": \"One of the defined content types\",\n  \"rag_directions\": \"Specific formatting and structural guidance for RAG optimization\",\n  \"paa_questions\": [\"Question 1?\", \"Question 2?\", \"Question 3?\"],\n  \"citations\": [\"Claim needing citation — Source type\", \"Statistic — Source\"],\n  \"parent_topic\": \"Name of parent Cluster (empty string for Pillar, Pillar name for Clusters)\",\n  \"priority_score\": 1-5,\n  \"word_count_range\": \"min-max\",\n  \"internal_link_targets\": [\"Topic Title 1\", \"Topic Title 2\"]\n\x7d\n\x60\x60\x60\n\nGenerate "
  ++ topic_count_guidance ++
  " topics total.\n\n**Output ONLY the JSON array. No markdown fences, no commentary.**"

/-- The user prompt built by `generate_topic_map` (ai_service.py lines
93-105), with the Python `or` defaults applied. -/
def initialUserPrompt (topic scope industry audience geo_focus competitors
    existing_content compiled_research : String) : String :=
  format_user_prompt topic scope
    (orDefault industry "Not specified")
    (orDefault audience "Not specified")
    (orDefault geo_focus "Not specified")
    (orDefault competitors "None provided")
    (orDefault existing_content "None provided")
    compiled_research
    (if scope = SCOPE_FOCUSED then "15-25" else "40-75")

/-- The truncation-recovery merge (ai_service.py lines 133-154, after the
continuation call): parse the continuation, salvage the original by
truncating at the last `}` and closing the array, and combine. -/
def mergeStage (raw contResp : String) (es : List JVal) : List JVal :=
  match parse_json contResp with
  | some ces =>
    if ces.isEmpty then es
    else if 0 < pyRfind (clean_json_response raw) '\x7d' then
      match json_loads (pyTake (clean_json_response raw)
          ((pyRfind (clean_json_response raw) '\x7d').toNat + 1) ++ "]") with
      | .ok (.list base_entries) => base_entries ++ ces
      | .ok _ => es
      | .error _ => if 10 < ces.length then ces else es
    else es
  | none => es

/-- Line 132's truncation check `raw_response.rstrip()[-1] != "]"`
(an `IndexError` when the stripped response is empty) and, on the
truncation path, the continuation call and merge. -/
def truncationStage (raw contResp : String) (es : List JVal)
    (calls : List Call) : Except PyErr (List JVal) × List Call :=
  match (pyRstrip raw).data.getLast? with
  | none => (.error PyErr.indexError, calls)
  | some c =>
    if c = ']' then (.ok es, calls)
    else
      (.ok (mergeStage raw contResp es),
       calls ++ [Call.cont (contPromptOf (pyTakeRight raw 500))])

/-- Lines 107-154 of `generate_topic_map`: initial parse, the repair
path, and the truncation path.  `raw`, `fixResp` and `contResp` are the
LLM's responses to the three possible calls; the returned list records
the calls actually issued, in order. -/
def computeEntries (up raw fixResp contResp : String) :
    Except PyErr (List JVal) × List Call :=
  let afterRepair : Option (List JVal) × List Call :=
    match parse_json raw with
    | some es => (some es, [Call.initial up])
    | none =>
      match json_loads (clean_json_response raw) with
      | .ok _ => (none, [Call.initial up])
      | .error e =>
        (parse_json fixResp,
         [Call.initial up, Call.fix (fixPromptOf e (pyTake raw 8000))])
  match afterRepair with
  | (none, calls) => (.error PyErr.parseError, calls)
  | (some es, calls) => truncationStage raw contResp es calls

/-- `"Missing required field" in e or "Expected exactly 1 Pillar" in e`. -/
def isCriticalMsg (e : String) : Bool :=
  strIn "Missing required field" e || strIn "Expected exactly 1 Pillar" e

/-- `entry` as a dict, as `validate_entry` requires (a non-dict raises
`TypeError` in Python). -/
def asEntry (v : JVal) : Option Entry :=
  match v with
  | .obj kvs => some kvs
  | _ => none

/-- All entries as dicts (`validate_topic_map` iterates `validate_entry`
over them; the first non-dict would raise `TypeError`). -/
def asEntries : List JVal → Option (List Entry)
  | [] => some []
  | v :: vs => do
    let e ← asEntry v
    let es ← asEntries vs
    some (e :: es)

/-- Lines 159-170 of `generate_topic_map`: validation (its `TypeError`
crashes propagate) and the critical-error filter. -/
def finishValidate (entries : List JVal) (ds : List Entry) :
    Except PyErr (List JVal) :=
  match validate_topic_mapE ds with
  | .error err => .error err
  | .ok errors =>
    if errors.isEmpty then .ok entries
    else
      let critical := errors.filter isCriticalMsg
      if critical.isEmpty then .ok entries
      else .error (PyErr.validationError (critical.take 10))

/-- Lines 156-170 of `generate_topic_map`: the empty-result check,
validation, and the critical-error filter. -/
def finishGen (entries : List JVal) : Except PyErr (List JVal) :=
  if entries.isEmpty then .error PyErr.emptyResult
  else
    match asEntries entries with
    | none => .error PyErr.typeError
    | some ds => finishValidate entries ds

/-- `generate_topic_map` (ai_service.py lines 75-170), as a function of
its inputs and of the LLM's responses to the (up to three) calls. -/
def generate_topic_map (api_key topic scope industry audience geo_focus
    competitors existing_content compiled_research
    raw fixResp contResp : String) : Except PyErr (List JVal) × List Call :=
  if api_key = "" then (.error PyErr.configError, [])
  else
    let up := initialUserPrompt topic scope industry audience geo_focus
      competitors existing_content compiled_research
    match computeEntries up raw fixResp contResp with
    | (.error e, calls) => (.error e, calls)
    | (.ok es, calls) => (finishGen es, calls)

/-! ### Helper lemmas -/

@[simp] theorem ofChars_data (s : String) : ofChars s.data = s := by
  cases s; rfl

@[simp] theorem data_ofChars (l : List Char) : (ofChars l).data = l := rfl

theorem missing_nil_of_all {e : Entry}
    (h : ∀ f ∈ required_fields, hasKey e f = true) :
    missingFieldErrors e = [] :=
  List.filterMap_eq_nil_iff.mpr fun f hf => by
    simp only [if_pos (h f hf)]

theorem validate_entry_of_allKeys {e : Entry}
    (h : missingFieldErrors e = []) :
    validate_entry e =
      levelErrors e ++ intentErrors e ++ scoreErrors e ++
        entitiesErrors e ++ paaErrors e ++ citationsErrors e := by
  unfold validate_entry
  rw [h]
  rfl

theorem perEntryErrorsFrom_eq_nil {l : List Entry}
    (h : ∀ e ∈ l, validate_entry e = []) :
    ∀ i, perEntryErrorsFrom i l = [] := by
  induction l with
  | nil => intro i; rfl
  | cons e es ih =>
    intro i
    have he := h e (List.mem_cons_self e es)
    simp only [perEntryErrorsFrom, he, List.map_nil, List.nil_append]
    exact ih (fun x hx => h x (List.mem_cons_of_mem e hx)) (i + 1)

theorem validate_entryE_of_hashable {e : Entry}
    (hl : hashable (dGetD e "level" JVal.null) = true)
    (hi : hashable (dGetD e "user_intent" JVal.null) = true) :
    validate_entryE e = .ok (validate_entry e) := by
  unfold validate_entryE validate_entry
  by_cases hm : (missingFieldErrors e).isEmpty
  · rw [if_pos hm, if_pos hm, if_neg (by simp [hl]), if_neg (by simp [hi])]
  · rw [if_neg hm, if_neg hm]

theorem validate_entryE_ok_eq {e : Entry} {l : List String}
    (h : validate_entryE e = .ok l) : validate_entry e = l := by
  unfold validate_entryE at h
  unfold validate_entry
  by_cases hm : (missingFieldErrors e).isEmpty
  · rw [if_pos hm] at h
    rw [if_pos hm]
    by_cases hl : hashable (dGetD e "level" JVal.null) = false
    · rw [if_pos hl] at h
      cases h
    · rw [if_neg hl] at h
      by_cases hi : hashable (dGetD e "user_intent" JVal.null) = false
      · rw [if_pos hi] at h
        cases h
      · rw [if_neg hi] at h
        injection h with h'
  · rw [if_neg hm] at h
    rw [if_neg hm]
    injection h with h'

theorem perEntryErrorsFromE_of_no_crash {l : List Entry}
    (hcl : ∀ e ∈ l, ∀ err, validate_entryE e ≠ .error err) :
    ∀ i, perEntryErrorsFromE i l = .ok (perEntryErrorsFrom i l) := by
  induction l with
  | nil => intro i; rfl
  | cons e es ih =>
    intro i
    unfold perEntryErrorsFromE perEntryErrorsFrom
    cases hve : validate_entryE e with
    | error err => exact absurd hve (hcl e (List.mem_cons_self e es) err)
    | ok errs =>
      rw [ih (fun x hx => hcl x (List.mem_cons_of_mem e hx)) (i + 1)]
      rw [validate_entryE_ok_eq hve]

theorem perEntryErrorsFromE_eq_nil {l : List Entry}
    (h : ∀ e ∈ l, validate_entryE e = .ok []) :
    ∀ i, perEntryErrorsFromE i l = .ok [] := by
  induction l with
  | nil => intro i; rfl
  | cons e es ih =>
    intro i
    unfold perEntryErrorsFromE
    rw [h e (List.mem_cons_self e es),
      ih (fun x hx => h x (List.mem_cons_of_mem e hx)) (i + 1)]
    rfl

theorem validate_topic_mapE_of_perEntry_ne {entries : List Entry}
    {msgs : List String}
    (h : perEntryErrorsFromE 0 entries = .ok msgs) (hne : msgs ≠ []) :
    validate_topic_mapE entries = .ok msgs := by
  unfold validate_topic_mapE
  rw [h]
  show (if msgs.isEmpty = true then _ else Except.ok msgs) = Except.ok msgs
  rw [if_neg (by simp [List.isEmpty_iff, hne])]

theorem validate_topic_map_of_perEntry_ne {entries : List Entry}
    (h : perEntryErrors entries ≠ []) :
    validate_topic_map entries = perEntryErrors entries := by
  unfold validate_topic_map
  rw [if_neg (by simp [List.isEmpty_iff, h])]

theorem perEntryErrorsFromE_ok_eq :
    ∀ (l : List Entry) (i : Nat) (msgs : List String),
      perEntryErrorsFromE i l = .ok msgs → perEntryErrorsFrom i l = msgs := by
  intro l
  induction l with
  | nil =>
    intro i msgs h
    unfold perEntryErrorsFromE at h
    unfold perEntryErrorsFrom
    exact Except.ok.inj h
  | cons e es ih =>
    intro i msgs h
    unfold perEntryErrorsFromE at h
    revert h
    cases hve : validate_entryE e with
    | error err =>
      intro h
      exact Except.noConfusion h
    | ok errs =>
      cases hrest : perEntryErrorsFromE (i + 1) es with
      | error err =>
        intro h
        exact Except.noConfusion h
      | ok rest =>
        intro h
        unfold perEntryErrorsFrom
        rw [validate_entryE_ok_eq hve, ih (i + 1) rest hrest]
        exact Except.ok.inj h

/-- The retained total `validate_topic_map` is exactly the crash-free
projection of the faithful `validate_topic_mapE`: whenever the latter
completes with a message list, the former computes that list. -/
theorem validate_topic_mapE_ok_eq {entries : List Entry} {msgs : List String}
    (h : validate_topic_mapE entries = .ok msgs) :
    validate_topic_map entries = msgs := by
  cases hper : perEntryErrorsFromE 0 entries with
  | error err =>
    have hE : validate_topic_mapE entries = .error err := by
      unfold validate_topic_mapE
      rw [hper]
    rw [hE] at h
    cases h
  | ok errors =>
    have hperT : perEntryErrors entries = errors :=
      perEntryErrorsFromE_ok_eq entries 0 errors hper
    by_cases hiso : errors = []
    · subst hiso
      cases hfil : entries.filter (levelIs "Pillar") with
      | nil =>
        have hE : validate_topic_mapE entries = .ok
            ["Expected exactly 1 Pillar, found " ++
              toString (entries.filter (levelIs "Pillar")).length] := by
          unfold validate_topic_mapE
          rw [hper]
          show (if ([] : List String).isEmpty = true then _ else Except.ok []) = _
          rw [if_pos (show ([] : List String).isEmpty = true from rfl)]
          rw [hfil]
        have hT : validate_topic_map entries =
            ["Expected exactly 1 Pillar, found " ++
              toString (entries.filter (levelIs "Pillar")).length] := by
          unfold validate_topic_map
          rw [hperT]
          simp only [List.isEmpty_nil, if_true]
          rw [hfil]
        rw [hE] at h
        rw [hT]
        exact Except.ok.inj h
      | cons p ps =>
        cases ps with
        | nil =>
          by_cases hc1 : ((entries.filter (levelIs "Cluster")).all
              fun c => hashable (titleOf c)) = false
          · have hE : validate_topic_mapE entries = .error PyErr.typeError := by
              unfold validate_topic_mapE
              rw [hper]
              show (if ([] : List String).isEmpty = true then _ else Except.ok []) = _
              rw [if_pos (show ([] : List String).isEmpty = true from rfl)]
              rw [hfil]
              show (if ((entries.filter (levelIs "Cluster")).all
                  fun c => hashable (titleOf c)) = false then _ else _) = _
              rw [if_pos hc1]
            rw [hE] at h
            cases h
          · by_cases hc2 : ((entries.filter (levelIs "Spoke")).all
                fun t => !truthy (parentOf t) || hashable (parentOf t)) = false
            · have hE : validate_topic_mapE entries = .error PyErr.typeError := by
                unfold validate_topic_mapE
                rw [hper]
                show (if ([] : List String).isEmpty = true then _ else Except.ok []) = _
                rw [if_pos (show ([] : List String).isEmpty = true from rfl)]
                rw [hfil]
                show (if ((entries.filter (levelIs "Cluster")).all
                    fun c => hashable (titleOf c)) = false then _ else _) = _
                rw [if_neg hc1]
                show (if ((entries.filter (levelIs "Spoke")).all
                    fun t => !truthy (parentOf t) || hashable (parentOf t)) = false
                  then _ else _) = _
                rw [if_pos hc2]
              rw [hE] at h
              cases h
            · have hE : validate_topic_mapE entries = .ok
                  (clusterParentErrors (entries.filter (levelIs "Cluster"))
                      (titleOf p) ++
                    spokeParentErrors (entries.filter (levelIs "Spoke"))
                      ((entries.filter (levelIs "Cluster")).map titleOf)) := by
                unfold validate_topic_mapE
                rw [hper]
                show (if ([] : List String).isEmpty = true then _ else Except.ok []) = _
                rw [if_pos (show ([] : List String).isEmpty = true from rfl)]
                rw [hfil]
                show (if ((entries.filter (levelIs "Cluster")).all
                    fun c => hashable (titleOf c)) = false then _ else _) = _
                rw [if_neg hc1]
                show (if ((entries.filter (levelIs "Spoke")).all
                    fun t => !truthy (parentOf t) || hashable (parentOf t)) = false
                  then _ else _) = _
                rw [if_neg hc2]
              have hT : validate_topic_map entries =
                  clusterParentErrors (entries.filter (levelIs "Cluster"))
                      (titleOf p) ++
                    spokeParentErrors (entries.filter (levelIs "Spoke"))
                      ((entries.filter (levelIs "Cluster")).map titleOf) := by
                unfold validate_topic_map
                rw [hperT]
                simp only [List.isEmpty_nil, if_true]
                rw [hfil]
              rw [hE] at h
              rw [hT]
              exact Except.ok.inj h
        | cons q qs =>
          have hE : validate_topic_mapE entries = .ok
              ["Expected exactly 1 Pillar, found " ++
                toString (entries.filter (levelIs "Pillar")).length] := by
            unfold validate_topic_mapE
            rw [hper]
            show (if ([] : List String).isEmpty = true then _ else Except.ok []) = _
            rw [if_pos (show ([] : List String).isEmpty = true from rfl)]
            rw [hfil]
          have hT : validate_topic_map entries =
              ["Expected exactly 1 Pillar, found " ++
                toString (entries.filter (levelIs "Pillar")).length] := by
            unfold validate_topic_map
            rw [hperT]
            simp only [List.isEmpty_nil, if_true]
            rw [hfil]
          rw [hE] at h
          rw [hT]
          exact Except.ok.inj h
    · have hE := validate_topic_mapE_of_perEntry_ne hper hiso
      rw [hE] at h
      have hT := validate_topic_map_of_perEntry_ne
        (by rw [hperT]; exact hiso)
      rw [hT, hperT]
      exact Except.ok.inj h

/-! ### C7: the cleaning step -/

theorem head_not_of_dropWhile_self {p : Char → Bool} {c : Char} {t : List Char}
    (h : (c :: t).dropWhile p = c :: t) : p c = false := by
  have := List.dropWhile_eq_self_iff.mp h (by simp)
  simpa using this

theorem dropWhile_append_of_head {p : Char → Bool} {l y : List Char}
    (hne : l ≠ []) (hl : l.dropWhile p = l) :
    (l ++ y).dropWhile p = l ++ y := by
  obtain ⟨c, t, rfl⟩ := List.exists_cons_of_ne_nil hne
  have hc := head_not_of_dropWhile_self hl
  simp [List.dropWhile_cons, hc]

/-- General behaviour of `_clean_json_response` on a fenced body with no
leading/trailing whitespace of its own: the fences are stripped and the
trailing-comma removal is applied to the body. -/
theorem clean_fenced (b : String) (hne : b.data ≠ [])
    (h1 : b.data.dropWhile isPySpace = b.data)
    (h2 : b.data.reverse.dropWhile isPySpace = b.data.reverse) :
    clean_json_response ("\x60\x60\x60json\n" ++ b ++ "\n\x60\x60\x60") = stripCommas b := by
  have hdata : ("\x60\x60\x60json\n" ++ b ++ "\n\x60\x60\x60").data =
      '\x60' :: '\x60' :: '\x60' :: 'j' :: 's' :: 'o' :: 'n' :: '\n' ::
        (b.data ++ ['\n', '\x60', '\x60', '\x60']) := by
    simp [String.data_append]
  -- stage 1: the outer strip removes nothing (both ends are backticks)
  have e1 : (pyStrip ("\x60\x60\x60json\n" ++ b ++ "\n\x60\x60\x60")).data =
      '\x60' :: '\x60' :: '\x60' :: 'j' :: 's' :: 'o' :: 'n' :: '\n' ::
        (b.data ++ ['\n', '\x60', '\x60', '\x60']) := by
    simp only [pyStrip, data_ofChars]
    rw [hdata]
    rw [List.dropWhile_cons, if_neg (by decide)]
    rw [show ('\x60' :: '\x60' :: '\x60' :: 'j' :: 's' :: 'o' :: 'n' :: '\n' ::
          (b.data ++ ['\n', '\x60', '\x60', '\x60'])).reverse =
        '\x60' :: '\x60' :: '\x60' :: '\n' :: (b.data.reverse ++
          ['\n', 'n', 'o', 's', 'j', '\x60', '\x60', '\x60']) by simp]
    rw [List.dropWhile_cons, if_neg (by decide)]
    simp
  -- stage 2: the front fence (with its `json` tag) and the newline go
  have e2 : stripFenceFront ('\x60' :: '\x60' :: '\x60' :: 'j' :: 's' :: 'o' :: 'n' :: '\n' ::
        (b.data ++ ['\n', '\x60', '\x60', '\x60'])) =
      b.data ++ ['\n', '\x60', '\x60', '\x60'] := by
    show ('\n' :: (b.data ++ ['\n', '\x60', '\x60', '\x60'])).dropWhile isPySpace = _
    rw [List.dropWhile_cons, if_pos (by decide)]
    exact dropWhile_append_of_head hne h1
  -- stage 3: the back fence and the newline before it go
  have e3 : stripFenceBack (b.data ++ ['\n', '\x60', '\x60', '\x60']) = b.data := by
    unfold stripFenceBack
    rw [show (b.data ++ ['\n', '\x60', '\x60', '\x60']).reverse =
        '\x60' :: '\x60' :: '\x60' :: '\n' :: b.data.reverse by simp]
    simp
  -- stage 4: the inner strip fixes the body
  have e4 : pyStrip b = b := by
    apply str_ext
    simp only [pyStrip, data_ofChars, h1, h2, List.reverse_reverse]
  show stripCommas (pyStrip (ofChars (stripFenceBack (stripFenceFront
      (pyStrip ("\x60\x60\x60json\n" ++ b ++ "\n\x60\x60\x60")).data)))) = stripCommas b
  rw [e1, e2, e3, ofChars_data, e4]

/-- C7: cleaning the fenced array `[{"a":1},]` yields the valid JSON
text `[{"a":1}]` decoding to `[{"a": 1}]`; in general the cleaning step
strips a leading/trailing code fence and removes commas immediately
preceding `]` or `}`. -/
theorem clean_json_response_spec :
    (clean_json_response "\x60\x60\x60json\n[\x7b\"a\":1\x7d,]\n\x60\x60\x60" =
        "[\x7b\"a\":1\x7d]" ∧
      json_loads "[\x7b\"a\":1\x7d]" = .ok (.list [.obj [("a", .int 1)]])) ∧
    ∀ b : String, b.data ≠ [] →
      b.data.dropWhile isPySpace = b.data →
      b.data.reverse.dropWhile isPySpace = b.data.reverse →
      clean_json_response ("\x60\x60\x60json\n" ++ b ++ "\n\x60\x60\x60") = stripCommas b :=
  ⟨⟨rfl, rfl⟩, clean_fenced⟩

theorem clean_json_response_spec_witness :
    ("[1,]" : String).data ≠ [] ∧
    ("[1,]" : String).data.dropWhile isPySpace = ("[1,]" : String).data ∧
    ("[1,]" : String).data.reverse.dropWhile isPySpace = ("[1,]" : String).data.reverse ∧
    clean_json_response ("\x60\x60\x60json\n" ++ "[1,]" ++ "\n\x60\x60\x60") =
      stripCommas "[1,]" :=
  ⟨by decide, by decide, by decide,
    clean_json_response_spec.2 "[1,]" (by decide) (by decide) (by decide)⟩

/-! ### C4: Pillar-count message -/

/-- C4 (amended): for an entry list whose entries all pass the per-entry
checks and which has zero or more than one Pillar entries,
`validate_topic_map` returns exactly the one "Expected exactly 1 Pillar"
message and performs no Cluster/Spoke parent checks. -/
theorem pillar_count_message (entries : List Entry)
    (hok : ∀ e ∈ entries, validate_entry e = [])
    (hp : (entries.filter (levelIs "Pillar")).length ≠ 1) :
    validate_topic_map entries =
      ["Expected exactly 1 Pillar, found " ++
        toString (entries.filter (levelIs "Pillar")).length] := by
  have hper : perEntryErrors entries = [] := perEntryErrorsFrom_eq_nil hok 0
  unfold validate_topic_map
  rw [hper]
  simp only [List.isEmpty_nil, if_true]
  cases hfil : entries.filter (levelIs "Pillar") with
  | nil => rfl
  | cons p ps =>
    cases ps with
    | nil => exact absurd (by rw [hfil]; rfl) hp
    | cons q qs => rfl

/-- C4 as stated is false: the singleton list of an empty entry has zero
Pillar entries, yet `validate_topic_map` reports no message containing
"Expected exactly 1 Pillar" (the per-entry failures suppress the
structural checks). -/
theorem pillar_count_counterexample :
    ([([] : Entry)].filter (levelIs "Pillar")).length = 0 ∧
    (validate_topic_map [([] : Entry)]).filter
        (fun m => strIn "Expected exactly 1 Pillar" m) = [] ∧
    validate_topic_map [([] : Entry)] ≠ [] := by
  refine ⟨rfl, by decide, by decide⟩

/-- A concrete well-formed entry, used by witnesses. -/
def sampleEntry (level title parent : String) : Entry :=
  [("level", JVal.str level), ("content_title", JVal.str title),
   ("primary_keyword", JVal.str "kw"), ("user_intent", JVal.str "Informational"),
   ("semantic_entities", JVal.list [JVal.str "a", JVal.str "b", JVal.str "c"]),
   ("content_type", JVal.str "Explainer"), ("rag_directions", JVal.str "r"),
   ("paa_questions", JVal.list [JVal.str "q1?", JVal.str "q2?"]),
   ("citations", JVal.list [JVal.str "c1"]), ("parent_topic", JVal.str parent),
   ("priority_score", JVal.int 3), ("word_count_range", JVal.str "1000-2000"),
   ("internal_link_targets", JVal.list [])]

/-- All 13 fields present but a list-valued (unhashable) level: CPython's
`validate_entry` raises `TypeError` at the level set test. -/
def listLevelEntry : Entry := ("level", JVal.list []) :: sampleEntry "Pillar" "P" ""

/-- A Cluster entry passing every per-entry check whose content_title is
a list: hashing it for the cluster-title set raises `TypeError`. -/
def listTitleCluster : Entry :=
  ("content_title", JVal.list [JVal.str "x"]) :: sampleEntry "Cluster" "ignored" "P"

theorem pillar_count_message_witness :
    validate_topic_map [sampleEntry "Cluster" "C" ""] =
      ["Expected exactly 1 Pillar, found " ++ toString 0] := by
  have h := pillar_count_message [sampleEntry "Cluster" "C" ""]
    (by intro e he; simp only [List.mem_singleton] at he; subst he; decide)
    (by decide)
  simpa using h

/-! ### C8: priority_score check -/

/-- C8 (amended): with all required fields present and hashable level
and user_intent values (so the earlier set tests do not raise
`TypeError`), a `priority_score` that is not an integer, or an integer
outside `[1,5]`, always yields the priority-score error among the
reported messages, while the boundary values `1` and `5` yield no
priority-score error (the report is exactly the other checks'
messages). -/
theorem priority_score_check (e : Entry)
    (hall : ∀ f ∈ required_fields, hasKey e f = true)
    (hhl : hashable (dGetD e "level" JVal.null) = true)
    (hhi : hashable (dGetD e "user_intent" JVal.null) = true) :
    (((∀ n : Int, dGetD e "priority_score" (JVal.int 0) ≠ JVal.int n) ∨
      (∃ n : Int, dGetD e "priority_score" (JVal.int 0) = JVal.int n ∧
        (n < 1 ∨ 5 < n))) →
      scoreErrors e = ["Invalid priority_score " ++
          quoted (pyStr (dGetD e "priority_score" (JVal.int 0))) ++
          ". Must be integer 1-5"] ∧
      validate_entryE e = .ok (validate_entry e) ∧
      ("Invalid priority_score " ++
          quoted (pyStr (dGetD e "priority_score" (JVal.int 0))) ++
          ". Must be integer 1-5") ∈ validate_entry e) ∧
    ((dGetD e "priority_score" (JVal.int 0) = JVal.int 1 ∨
      dGetD e "priority_score" (JVal.int 0) = JVal.int 5) →
      scoreErrors e = [] ∧
      validate_entryE e = .ok (levelErrors e ++ intentErrors e ++
        entitiesErrors e ++ paaErrors e ++ citationsErrors e)) := by
  have hve := validate_entry_of_allKeys (missing_nil_of_all hall)
  have hbridge := validate_entryE_of_hashable hhl hhi
  constructor
  · intro h
    have hs : scoreErrors e = ["Invalid priority_score " ++
        quoted (pyStr (dGetD e "priority_score" (JVal.int 0))) ++
        ". Must be integer 1-5"] := by
      unfold scoreErrors
      cases hv : dGetD e "priority_score" (JVal.int 0) with
      | int n =>
        rcases h with h | ⟨m, hm, hlt⟩
        · exact absurd hv (h n)
        · rw [hv] at hm
          injection hm with hnm
          subst hnm
          show (if n < 1 ∨ 5 < n then _ else _) = _
          rw [if_pos hlt]
      | null => rfl
      | str s => rfl
      | list xs => rfl
      | obj kvs => rfl
    refine ⟨hs, hbridge, ?_⟩
    rw [hve, hs]
    simp
  · intro h
    have hs : scoreErrors e = [] := by
      unfold scoreErrors
      rcases h with hv | hv <;> rw [hv] <;> simp
    refine ⟨hs, ?_⟩
    rw [hbridge, hve, hs]
    simp

/-- All 13 fields present, a non-integer priority_score, and a
list-valued level. -/
def listLevelBadScore : Entry :=
  ("level", JVal.list []) :: ("priority_score", JVal.str "high") ::
    sampleEntry "Pillar" "P" ""

/-- C8 as stated is false: this entry has all required fields and a
non-integer priority_score, yet CPython's `validate_entry` raises
`TypeError` at the level set test before ever reaching the
priority_score check, so no priority-score error is reported. -/
theorem priority_score_crash_counterexample :
    required_fields.all (hasKey listLevelBadScore) = true ∧
    dGetD listLevelBadScore "priority_score" (JVal.int 0) = JVal.str "high" ∧
    validate_entryE listLevelBadScore = .error PyErr.typeError := by
  refine ⟨by decide, by decide, rfl⟩

theorem priority_score_check_witness :
    (∀ f ∈ required_fields,
        hasKey (sampleEntry "Pillar" "P" "") f = true) ∧
    scoreErrors
        (("priority_score", JVal.str "high") ::
          sampleEntry "Pillar" "P" "") =
      ["Invalid priority_score " ++ quoted "high" ++ ". Must be integer 1-5"] ∧
    scoreErrors
        (("priority_score", JVal.int 5) :: sampleEntry "Pillar" "P" "") = [] := by
  refine ⟨by decide, ?_, ?_⟩
  · have h := (priority_score_check
      (("priority_score", JVal.str "high") :: sampleEntry "Pillar" "P" "")
      (by decide) (by decide) (by decide)).1
      (Or.inl (fun n h => by simp [sampleEntry, dGetD, dLookup] at h))
    simpa using h.1
  · have h := (priority_score_check
      (("priority_score", JVal.int 5) :: sampleEntry "Pillar" "P" "")
      (by decide) (by decide) (by decide)).2 (Or.inr (by decide))
    simpa using h.1

/-! ### C3: missing-field reporting -/

theorem mem_perEntryErrorsFrom {m : String} :
    ∀ (l : List Entry) (i j : Nat) (e : Entry), l[i]? = some e →
      m ∈ validate_entry e →
      entryMsg (j + i) e m ∈ perEntryErrorsFrom j l := by
  intro l
  induction l with
  | nil => intro i j e he; simp at he
  | cons x xs ih =>
    intro i j e he hm
    cases i with
    | zero =>
      simp only [List.getElem?_cons_zero, Option.some.injEq] at he
      subst he
      exact List.mem_append_left _ (List.mem_map.mpr ⟨m, hm, rfl⟩)
    | succ i' =>
      simp only [List.getElem?_cons_succ] at he
      have := ih i' (j + 1) e he hm
      rw [show j + 1 + i' = j + (i' + 1) by omega] at this
      exact List.mem_append_right _ this

theorem validate_entry_missing {e : Entry} {f : String}
    (hf : f ∈ required_fields) (hm : hasKey e f = false) :
    validate_entry e = missingFieldErrors e ∧
    ("Missing required field: " ++ f) ∈ missingFieldErrors e := by
  have hmem : ("Missing required field: " ++ f) ∈ missingFieldErrors e :=
    List.mem_filterMap.mpr ⟨f, hf, by rw [if_neg (by simp [hm])]⟩
  refine ⟨?_, hmem⟩
  unfold validate_entry
  rw [if_neg (by simp [List.isEmpty_iff, List.ne_nil_of_mem hmem])]

/-- C3 (amended): provided every entry's per-entry validation completes
without `TypeError` (each entry either lacks a required field or has
hashable level and user_intent values), an entry missing a required
field yields the index- and title-prefixed "Missing required field"
message; only field-presence messages are reported for that entry (the
value checks are skipped), and the whole result is the per-entry message
list (no structural checks). -/
theorem missing_field_reporting (entries : List Entry) (i : Nat) (e : Entry)
    (f : String) (he : entries[i]? = some e) (hf : f ∈ required_fields)
    (hm : hasKey e f = false)
    (hcl : ∀ e' ∈ entries, ∀ err, validate_entryE e' ≠ .error err) :
    validate_topic_mapE entries = .ok (perEntryErrors entries) ∧
    entryMsg i e ("Missing required field: " ++ f) ∈ perEntryErrors entries ∧
    validate_entryE e = .ok (missingFieldErrors e) ∧
    (∀ m ∈ missingFieldErrors e, ∃ g ∈ required_fields,
        hasKey e g = false ∧ m = "Missing required field: " ++ g) := by
  obtain ⟨hveq, hmem⟩ := validate_entry_missing hf hm
  have hmem' : entryMsg i e ("Missing required field: " ++ f) ∈
      perEntryErrors entries := by
    have := mem_perEntryErrorsFrom entries i 0 e he (hveq ▸ hmem)
    simpa using this
  have hne : perEntryErrors entries ≠ [] := List.ne_nil_of_mem hmem'
  have hperE : perEntryErrorsFromE 0 entries = .ok (perEntryErrors entries) :=
    perEntryErrorsFromE_of_no_crash hcl 0
  have hEe : validate_entryE e = .ok (missingFieldErrors e) := by
    unfold validate_entryE
    rw [if_neg (by simp [List.isEmpty_iff, List.ne_nil_of_mem hmem])]
  refine ⟨validate_topic_mapE_of_perEntry_ne hperE hne, hmem', hEe, ?_⟩
  intro m hm'
  obtain ⟨g, hg, hgsome⟩ := List.mem_filterMap.mp hm'
  by_cases hk : hasKey e g = true
  · rw [if_pos hk] at hgsome
    cases hgsome
  · rw [if_neg hk] at hgsome
    injection hgsome with hmg
    exact ⟨g, hg, by simpa using hk, hmg.symm⟩

/-- C3 as stated is false: here entry 1 lacks `content_title`, but
entry 0 has all 13 fields with a list-valued level, so CPython's
per-entry loop raises `TypeError` and `validate_topic_map` returns no
message list at all — in particular no missing-field message. -/
theorem missing_field_crash_counterexample :
    hasKey ([("level", JVal.str "Pillar")] : Entry) "content_title" = false ∧
    "content_title" ∈ required_fields ∧
    validate_topic_mapE [listLevelEntry, [("level", JVal.str "Pillar")]] =
      .error PyErr.typeError := by
  refine ⟨by decide, by decide, rfl⟩

theorem missing_field_reporting_witness :
    entryMsg 0 [("level", JVal.str "Pillar")]
        ("Missing required field: " ++ "content_title") ∈
      perEntryErrors [[("level", JVal.str "Pillar")]] ∧
    validate_topic_mapE [[("level", JVal.str "Pillar")]] =
      .ok (perEntryErrors [[("level", JVal.str "Pillar")]]) := by
  have h := missing_field_reporting [[("level", JVal.str "Pillar")]] 0
    [("level", JVal.str "Pillar")] "content_title" rfl (by decide) (by decide)
    (fun e' he' err hcontra => by
      simp only [List.mem_singleton] at he'
      subst he'
      exact Except.noConfusion hcontra)
  exact ⟨h.2.1, h.1⟩

/-! ### C1: fully valid maps validate cleanly -/

/-- The claim's per-entry conditions: all 13 required fields present,
valid level and user_intent, integer priority_score in [1,5],
semantic_entities of length 3-5, at least 2 paa_questions, at least one
citation. -/
def WellFormedEntry (e : Entry) : Prop :=
  (∀ f ∈ required_fields, hasKey e f = true) ∧
  levelMem (dGetD e "level" JVal.null) = true ∧
  intentMem (dGetD e "user_intent" JVal.null) = true ∧
  (∃ n : Int, dGetD e "priority_score" (JVal.int 0) = JVal.int n ∧ 1 ≤ n ∧ n ≤ 5) ∧
  (∃ xs, dGetD e "semantic_entities" (JVal.list []) = JVal.list xs ∧
    3 ≤ xs.length ∧ xs.length ≤ 5) ∧
  (∃ xs, dGetD e "paa_questions" (JVal.list []) = JVal.list xs ∧ 2 ≤ xs.length) ∧
  (∃ xs, dGetD e "citations" (JVal.list []) = JVal.list xs ∧ 1 ≤ xs.length)

theorem validate_entry_nil_of_wf {e : Entry} (h : WellFormedEntry e) :
    validate_entry e = [] := by
  obtain ⟨hall, hlv, hit, ⟨n, hn, h1, h5⟩, ⟨xs, hx, hx3, hx5⟩,
    ⟨ys, hy, hy2⟩, ⟨zs, hz, hz1⟩⟩ := h
  rw [validate_entry_of_allKeys (missing_nil_of_all hall)]
  have e1 : levelErrors e = [] := by
    unfold levelErrors
    rw [if_pos hlv]
  have e2 : intentErrors e = [] := by
    unfold intentErrors
    rw [if_pos hit]
  have e3 : scoreErrors e = [] := by
    unfold scoreErrors
    rw [hn]
    show (if n < 1 ∨ 5 < n then _ else _) = _
    rw [if_neg (by omega)]
  have e4 : entitiesErrors e = [] := by
    unfold entitiesErrors
    rw [hx]
    show (if xs.length < 3 ∨ 5 < xs.length then _ else _) = _
    rw [if_neg (by omega)]
  have e5 : paaErrors e = [] := by
    unfold paaErrors
    rw [hy]
    show (if ys.length < 2 then _ else _) = _
    rw [if_neg (by omega)]
  have e6 : citationsErrors e = [] := by
    unfold citationsErrors
    rw [hz]
    show (if zs.length < 1 then _ else _) = _
    rw [if_neg (by omega)]
  rw [e1, e2, e3, e4, e5, e6]
  rfl

/-- C1: a list of well-formed entries with exactly one Pillar, all
non-empty Cluster parents equal to the Pillar's title, and all non-empty
Spoke parents equal to some Cluster's title, validates with no errors. -/
theorem hashable_of_levelMem {v : JVal} (h : levelMem v = true) :
    hashable v = true := by
  cases v <;> simp_all [levelMem, hashable]

theorem hashable_of_intentMem {v : JVal} (h : intentMem v = true) :
    hashable v = true := by
  cases v <;> simp_all [intentMem, hashable]

theorem validate_entryE_nil_of_wf {e : Entry} (h : WellFormedEntry e) :
    validate_entryE e = .ok [] := by
  rw [validate_entryE_of_hashable (hashable_of_levelMem h.2.1)
    (hashable_of_intentMem h.2.2.1)]
  rw [validate_entry_nil_of_wf h]

/-- C1 (amended): a list of well-formed entries with exactly one Pillar,
all non-empty Cluster parents equal to the Pillar's title, all non-empty
Spoke parents equal to some Cluster's title, and no unhashable
(list/dict) Cluster content_title, validates with no errors and no
`TypeError`. -/
theorem validator_accepts_valid_map (entries : List Entry) (p : Entry)
    (hok : ∀ e ∈ entries, WellFormedEntry e)
    (hp : entries.filter (levelIs "Pillar") = [p])
    (hc : ∀ c ∈ entries, levelIs "Cluster" c = true →
      truthy (parentOf c) = true → parentOf c = titleOf p)
    (hs : ∀ s ∈ entries, levelIs "Spoke" s = true →
      truthy (parentOf s) = true →
      parentOf s ∈ (entries.filter (levelIs "Cluster")).map titleOf)
    (hh : ∀ c ∈ entries, levelIs "Cluster" c = true →
      hashable (titleOf c) = true) :
    validate_topic_mapE entries = .ok [] := by
  have hper : perEntryErrorsFromE 0 entries = .ok [] :=
    perEntryErrorsFromE_eq_nil (fun e he => validate_entryE_nil_of_wf (hok e he)) 0
  have hallc : ((entries.filter (levelIs "Cluster")).all
      fun c => hashable (titleOf c)) = true := by
    rw [List.all_eq_true]
    intro c hcin
    obtain ⟨hin, hcl⟩ := List.mem_filter.mp hcin
    exact hh c hin hcl
  have halls : ((entries.filter (levelIs "Spoke")).all
      fun t => !truthy (parentOf t) || hashable (parentOf t)) = true := by
    rw [List.all_eq_true]
    intro t htin
    obtain ⟨hin, hsl⟩ := List.mem_filter.mp htin
    by_cases ht : truthy (parentOf t) = true
    · have hmem := hs t hin hsl ht
      obtain ⟨c, hcin, hceq⟩ := List.mem_map.mp hmem
      obtain ⟨hin2, hcl2⟩ := List.mem_filter.mp hcin
      rw [Bool.or_eq_true]
      exact Or.inr (hceq ▸ hh c hin2 hcl2)
    · have ht' : truthy (parentOf t) = false := by simpa using ht
      simp [ht']
  unfold validate_topic_mapE
  rw [hper]
  simp only [List.isEmpty_nil, if_true]
  rw [hp]
  show (if ((entries.filter (levelIs "Cluster")).all
      fun c => hashable (titleOf c)) = false then _ else _) = _
  rw [if_neg (by simp [hallc])]
  show (if ((entries.filter (levelIs "Spoke")).all
      fun t => !truthy (parentOf t) || hashable (parentOf t)) = false
    then _ else _) = _
  rw [if_neg (by simp [halls])]
  show Except.ok ((entries.filter (levelIs "Cluster")).filterMap _ ++
      (entries.filter (levelIs "Spoke")).filterMap _) =
    Except.ok ([] : List String)
  refine congrArg Except.ok ?_
  refine List.append_eq_nil.mpr
    ⟨List.filterMap_eq_nil_iff.mpr ?_, List.filterMap_eq_nil_iff.mpr ?_⟩
  · intro c hcin
    obtain ⟨hin, hcl⟩ := List.mem_filter.mp hcin
    show (if truthy (parentOf c) ∧ parentOf c ≠ titleOf p then some _ else none) = none
    rw [if_neg ?_]
    rintro ⟨h1, h2⟩
    exact h2 (hc c hin hcl h1)
  · intro t htin
    obtain ⟨hin, hsl⟩ := List.mem_filter.mp htin
    show (if truthy (parentOf t) ∧
        parentOf t ∉ (entries.filter (levelIs "Cluster")).map titleOf
      then some _ else none) = none
    rw [if_neg ?_]
    rintro ⟨h1, h2⟩
    exact h2 (hs t hin hsl h1)

/-- C1 as stated is false: both entries pass every per-entry check, the
list has exactly one Pillar, the Cluster's parent equals the Pillar's
title and there are no Spokes, yet CPython's `validate_topic_map`
raises `TypeError` hashing the Cluster's list-valued content_title for
the cluster-title set instead of returning an empty error list. -/
theorem validator_crash_counterexample :
    validate_entryE (sampleEntry "Pillar" "P" "") = .ok [] ∧
    validate_entryE listTitleCluster = .ok [] ∧
    [sampleEntry "Pillar" "P" "", listTitleCluster].filter (levelIs "Pillar") =
      [sampleEntry "Pillar" "P" ""] ∧
    truthy (parentOf listTitleCluster) = true ∧
    parentOf listTitleCluster = titleOf (sampleEntry "Pillar" "P" "") ∧
    [sampleEntry "Pillar" "P" "", listTitleCluster].filter (levelIs "Spoke") = [] ∧
    validate_topic_mapE [sampleEntry "Pillar" "P" "", listTitleCluster] =
      .error PyErr.typeError := by
  refine ⟨rfl, rfl, by decide, by decide, by decide, by decide, rfl⟩

theorem validator_accepts_valid_map_witness :
    validate_topic_mapE [sampleEntry "Pillar" "P" "",
      sampleEntry "Cluster" "C" "P", sampleEntry "Spoke" "S" "C"] = .ok [] := by
  have mem3 : ∀ e ∈ [sampleEntry "Pillar" "P" "",
      sampleEntry "Cluster" "C" "P", sampleEntry "Spoke" "S" "C"],
      e = sampleEntry "Pillar" "P" "" ∨ e = sampleEntry "Cluster" "C" "P" ∨
        e = sampleEntry "Spoke" "S" "C" := by
    intro e he
    simpa using he
  refine validator_accepts_valid_map _ (sampleEntry "Pillar" "P" "") ?_ rfl ?_ ?_ ?_
  · intro e he
    rcases mem3 e he with rfl | rfl | rfl <;>
      exact ⟨by decide, by decide, by decide, ⟨3, rfl, by norm_num⟩,
        ⟨_, rfl, by decide⟩, ⟨_, rfl, by decide⟩, ⟨_, rfl, by decide⟩⟩
  · intro c hcin hcl ht
    rcases mem3 c hcin with rfl | rfl | rfl <;> revert hcl ht <;> decide
  · intro t htin hsl ht
    rcases mem3 t htin with rfl | rfl | rfl <;> revert hsl ht <;> decide
  · intro c hcin hcl
    rcases mem3 c hcin with rfl | rfl | rfl <;> revert hcl <;> decide

/-! ### C2: critical-error handling -/

theorem asEntries_obj : ∀ ds : List Entry,
    asEntries (ds.map JVal.obj) = some ds := by
  intro ds
  induction ds with
  | nil => rfl
  | cons d ds ih => simp [asEntries, asEntry, ih]

/-- C2 (amended): on a non-empty entry list whose validation completes
(returns a message list rather than raising `TypeError`), the final
phase of `generate_topic_map` fails iff the report contains a critical
message; the failure carries the first (at most) 10 critical messages,
and with no critical message the full entry list is returned.  A message
is critical iff it contains "Missing required field" or "Expected
exactly 1 Pillar". -/
theorem critical_error_handling (ds : List Entry) (hne : ds ≠ [])
    (errors : List String) (hval : validate_topic_mapE ds = .ok errors) :
    (errors.filter isCriticalMsg ≠ [] →
      finishGen (ds.map JVal.obj) =
        .error (PyErr.validationError ((errors.filter isCriticalMsg).take 10)) ∧
      ((errors.filter isCriticalMsg).take 10).length ≤ 10 ∧
      (∃ rest, errors.filter isCriticalMsg =
        (errors.filter isCriticalMsg).take 10 ++ rest)) ∧
    (errors.filter isCriticalMsg = [] →
      finishGen (ds.map JVal.obj) = .ok (ds.map JVal.obj)) ∧
    (∀ m, isCriticalMsg m = true ↔
      (ContainsSub "Missing required field" m ∨
        ContainsSub "Expected exactly 1 Pillar" m)) := by
  have hmap : asEntries (ds.map JVal.obj) = some ds := asEntries_obj ds
  have hne' : (ds.map JVal.obj).isEmpty = false := by
    cases ds with
    | nil => exact absurd rfl hne
    | cons d ds => rfl
  have hstep : finishGen (ds.map JVal.obj) = finishValidate (ds.map JVal.obj) ds := by
    unfold finishGen
    rw [hne']
    rw [if_neg (by simp)]
    rw [hmap]
  refine ⟨?_, ?_, ?_⟩
  · intro hcrit
    have herr : errors ≠ [] := by
      intro h
      rw [h] at hcrit
      exact hcrit rfl
    have hfin : finishGen (ds.map JVal.obj) =
        .error (PyErr.validationError ((errors.filter isCriticalMsg).take 10)) := by
      rw [hstep]
      unfold finishValidate
      rw [hval]
      show (if errors.isEmpty = true then Except.ok (ds.map JVal.obj) else _) = _
      rw [if_neg (by simp [List.isEmpty_iff, herr])]
      show (if (errors.filter isCriticalMsg).isEmpty = true
          then Except.ok (ds.map JVal.obj) else _) = _
      rw [if_neg (by simp [List.isEmpty_iff, hcrit])]
    exact ⟨hfin, List.length_take_le _ _,
      ⟨(errors.filter isCriticalMsg).drop 10, (List.take_append_drop _ _).symm⟩⟩
  · intro hcrit
    rw [hstep]
    unfold finishValidate
    rw [hval]
    show (if errors.isEmpty = true then Except.ok (ds.map JVal.obj) else _) = _
    by_cases herr : errors = []
    · rw [if_pos (by simp [herr])]
    · rw [if_neg (by simp [List.isEmpty_iff, herr])]
      show (if (errors.filter isCriticalMsg).isEmpty = true
          then Except.ok (ds.map JVal.obj) else _) = _
      rw [if_pos (by simp [hcrit])]
  · intro m
    unfold isCriticalMsg
    rw [Bool.or_eq_true, strIn_iff, strIn_iff]

/-- C2 as stated is false: an entry with all 13 fields but a list-valued
level makes the validator raise `TypeError` (no error list exists), and
`generate_topic_map`'s validation phase fails with that crash although
the message-level report contains no critical message. -/
theorem critical_error_crash_counterexample :
    (validate_topic_map [listLevelEntry]).filter isCriticalMsg = [] ∧
    validate_topic_mapE [listLevelEntry] = .error PyErr.typeError ∧
    finishGen ([listLevelEntry].map JVal.obj) = .error PyErr.typeError := by
  refine ⟨rfl, rfl, rfl⟩

theorem critical_error_handling_witness :
    finishGen ([([] : Entry)].map JVal.obj) =
      .error (PyErr.validationError
        (((validate_topic_map [([] : Entry)]).filter isCriticalMsg).take 10)) ∧
    finishGen ([sampleEntry "Pillar" "P" "",
        sampleEntry "Cluster" "C" "X"].map JVal.obj) =
      .ok ([sampleEntry "Pillar" "P" "",
        sampleEntry "Cluster" "C" "X"].map JVal.obj) :=
  ⟨((critical_error_handling [([] : Entry)] (by decide)
      (validate_topic_map [([] : Entry)]) rfl).1 (by decide)).1,
   (critical_error_handling [sampleEntry "Pillar" "P" "",
      sampleEntry "Cluster" "C" "X"] (by decide)
      (validate_topic_map [sampleEntry "Pillar" "P" "",
        sampleEntry "Cluster" "C" "X"]) rfl).2.1 (by decide)⟩

/-! ### C9: empty responses crash the truncation check -/

theorem allws_of_pyRstrip_nil {s : String} (h : pyRstrip s = "") :
    ∀ c ∈ s.data, isPySpace c = true := by
  have hd : (s.data.reverse.dropWhile isPySpace).reverse = [] :=
    congrArg String.data h
  rw [List.reverse_eq_nil_iff] at hd
  intro c hc
  exact List.dropWhile_eq_nil_iff.mp hd c (List.mem_reverse.mpr hc)

theorem pyStrip_nil_of_rstrip_nil {s : String} (h : pyRstrip s = "") :
    pyStrip s = "" := by
  apply str_ext
  show ((s.data.dropWhile isPySpace).reverse.dropWhile isPySpace).reverse = []
  rw [List.dropWhile_eq_nil_iff.mpr (allws_of_pyRstrip_nil h)]
  rfl

theorem clean_of_strip_nil {s : String} (h : pyStrip s = "") :
    clean_json_response s = "" := by
  show stripCommas (pyStrip (ofChars (stripFenceBack (stripFenceFront
    (pyStrip s).data)))) = ""
  rw [h]
  rfl

theorem generate_unfold (key topic scope industry audience geo_focus
    competitors existing_content compiled_research raw fixResp contResp : String)
    (hkey : key ≠ "") :
    generate_topic_map key topic scope industry audience geo_focus competitors
        existing_content compiled_research raw fixResp contResp =
      (match computeEntries (initialUserPrompt topic scope industry audience
          geo_focus competitors existing_content compiled_research)
          raw fixResp contResp with
       | (.error e, calls) => (.error e, calls)
       | (.ok es, calls) => (finishGen es, calls)) := by
  unfold generate_topic_map
  rw [if_neg hkey]

/-- C9: when the initial response is empty or all-whitespace and the
repair response decodes as a JSON array, `generate_topic_map` crashes
with the unhandled `IndexError` of `raw_response.rstrip()[-1]` instead
of any of its specified failure modes. -/
theorem empty_response_index_error (key topic scope industry audience
    geo_focus competitors existing_content compiled_research
    raw fixResp contResp : String) (l : List JVal)
    (hkey : key ≠ "") (hws : pyRstrip raw = "")
    (hfix : parse_json fixResp = some l) :
    (generate_topic_map key topic scope industry audience geo_focus competitors
        existing_content compiled_research raw fixResp contResp).1 =
      .error PyErr.indexError ∧
    (PyErr.indexError ≠ PyErr.configError ∧
     PyErr.indexError ≠ PyErr.parseError ∧
     PyErr.indexError ≠ PyErr.emptyResult ∧
     ∀ msgs, PyErr.indexError ≠ PyErr.validationError msgs) := by
  have hclean : clean_json_response raw = "" :=
    clean_of_strip_nil (pyStrip_nil_of_rstrip_nil hws)
  have hload : json_loads (clean_json_response raw) = .error "Expecting value" := by
    rw [hclean]
    rfl
  have hparse : parse_json raw = none := by
    unfold parse_json
    rw [hload]
  have hce : computeEntries (initialUserPrompt topic scope industry audience
      geo_focus competitors existing_content compiled_research)
      raw fixResp contResp =
      (.error PyErr.indexError,
       [Call.initial (initialUserPrompt topic scope industry audience geo_focus
          competitors existing_content compiled_research),
        Call.fix (fixPromptOf "Expecting value" (pyTake raw 8000))]) := by
    unfold computeEntries truncationStage
    rw [hparse, hload, hfix, hws]
    rfl
  refine ⟨?_, by decide, by decide, by decide, fun msgs => by intro h; cases h⟩
  rw [generate_unfold key topic scope industry audience geo_focus competitors
    existing_content compiled_research raw fixResp contResp hkey, hce]

theorem empty_response_index_error_witness :
    (generate_topic_map "k" "t" "s" "i" "a" "g" "c" "e" "r"
        "  " "[]" "anything").1 = .error PyErr.indexError :=
  (empty_response_index_error "k" "t" "s" "i" "a" "g" "c" "e" "r"
    "  " "[]" "anything" [] (by decide) (by decide) (by decide)).1

/-! ### C6: single repair attempt, then a parse-phase failure -/

/-- C6: when the cleaned initial response fails to decode,
`generate_topic_map` issues exactly one repair call whose prompt
contains the decode error message and the first 8000 characters of the
raw output; if the repair response does not decode as a JSON array
either, the result is the parse-phase error, which is distinct from the
validation-phase error, and no further call is made. -/
theorem repair_then_parse_error (key topic scope industry audience geo_focus
    competitors existing_content compiled_research raw fixResp contResp
    e : String) (hkey : key ≠ "")
    (hload : json_loads (clean_json_response raw) = .error e)
    (hfix : parse_json fixResp = none) :
    (generate_topic_map key topic scope industry audience geo_focus competitors
        existing_content compiled_research raw fixResp contResp).1 =
      .error PyErr.parseError ∧
    (generate_topic_map key topic scope industry audience geo_focus competitors
        existing_content compiled_research raw fixResp contResp).2 =
      [Call.initial (initialUserPrompt topic scope industry audience geo_focus
          competitors existing_content compiled_research),
       Call.fix (fixPromptOf e (pyTake raw 8000))] ∧
    ContainsSub e (fixPromptOf e (pyTake raw 8000)) ∧
    ContainsSub (pyTake raw 8000) (fixPromptOf e (pyTake raw 8000)) ∧
    (∀ msgs, PyErr.parseError ≠ PyErr.validationError msgs) := by
  have hparse : parse_json raw = none := by
    unfold parse_json
    rw [hload]
  have hce : computeEntries (initialUserPrompt topic scope industry audience
      geo_focus competitors existing_content compiled_research)
      raw fixResp contResp =
      (.error PyErr.parseError,
       [Call.initial (initialUserPrompt topic scope industry audience geo_focus
          competitors existing_content compiled_research),
        Call.fix (fixPromptOf e (pyTake raw 8000))]) := by
    unfold computeEntries
    rw [hparse, hload, hfix]
  have hgen := generate_unfold key topic scope industry audience geo_focus
    competitors existing_content compiled_research raw fixResp contResp hkey
  refine ⟨by rw [hgen, hce], by rw [hgen, hce], ?_, ?_, fun msgs h => by cases h⟩
  · refine ⟨("The following JSON was returned but failed to parse. Please fix it so it is valid JSON. Return ONLY the corrected JSON array with no markdown fences or commentary.\n\nError: " : String).data,
      ("\n\nOriginal output:\n" : String).data ++ (pyTake raw 8000).data, ?_⟩
    simp only [fixPromptOf, String.data_append, List.append_assoc]
  · refine ⟨("The following JSON was returned but failed to parse. Please fix it so it is valid JSON. Return ONLY the corrected JSON array with no markdown fences or commentary.\n\nError: " : String).data ++
      e.data ++ ("\n\nOriginal output:\n" : String).data, [], ?_⟩
    simp only [fixPromptOf, String.data_append, List.append_nil, List.append_assoc]

theorem repair_then_parse_error_witness :
    (generate_topic_map "k" "t" "s" "i" "a" "g" "c" "e" "r"
        "\x7bnot json" "also bad" "anything").1 = .error PyErr.parseError :=
  (repair_then_parse_error "k" "t" "s" "i" "a" "g" "c" "e" "r"
    "\x7bnot json" "also bad" "anything" "Expecting property name"
    (by decide) rfl rfl).1

/-! ### C5: truncation continuation and salvage -/

theorem mergeStage_salvage_ok {raw contResp : String} {es0 ces bs : List JVal}
    {p : Nat}
    (h3 : parse_json contResp = some ces) (h4 : ces ≠ [])
    (hrf : pyRfind (clean_json_response raw) '\x7d' = (p : Int)) (hp : 0 < p)
    (hjs : json_loads (pyTake (clean_json_response raw) (p + 1) ++ "]") =
      .ok (JVal.list bs)) :
    mergeStage raw contResp es0 = bs ++ ces := by
  unfold mergeStage
  rw [h3]
  show (if ces.isEmpty = true then es0 else _) = _
  rw [if_neg (by simp [List.isEmpty_iff, h4])]
  rw [hrf, Int.toNat_natCast]
  rw [if_pos (by exact_mod_cast hp)]
  rw [hjs]

theorem mergeStage_salvage_error {raw contResp : String} {es0 ces : List JVal}
    {p : Nat} {err : String}
    (h3 : parse_json contResp = some ces) (h4 : ces ≠ [])
    (hrf : pyRfind (clean_json_response raw) '\x7d' = (p : Int)) (hp : 0 < p)
    (hjs : json_loads (pyTake (clean_json_response raw) (p + 1) ++ "]") =
      .error err) :
    mergeStage raw contResp es0 = if 10 < ces.length then ces else es0 := by
  unfold mergeStage
  rw [h3]
  show (if ces.isEmpty = true then es0 else _) = _
  rw [if_neg (by simp [List.isEmpty_iff, h4])]
  rw [hrf, Int.toNat_natCast]
  rw [if_pos (by exact_mod_cast hp)]
  rw [hjs]

theorem computeEntries_truncation {up raw fixResp contResp : String}
    {es0 : List JVal} {c : Char}
    (h0 : parse_json raw = some es0)
    (h1 : (pyRstrip raw).data.getLast? = some c) (h2 : c ≠ ']') :
    computeEntries up raw fixResp contResp =
      (.ok (mergeStage raw contResp es0),
       [Call.initial up, Call.cont (contPromptOf (pyTakeRight raw 500))]) := by
  have ht : truncationStage raw contResp es0 [Call.initial up] =
      (.ok (mergeStage raw contResp es0),
       [Call.initial up, Call.cont (contPromptOf (pyTakeRight raw 500))]) := by
    unfold truncationStage
    rw [h1]
    show (if c = ']' then _ else _) = _
    rw [if_neg h2]
    rfl
  unfold computeEntries
  rw [h0]
  exact ht

/-- After the parse-or-repair phase: the entries come either from a
successful strict parse of the raw response, or — for a genuinely
truncated response, whose strict parse fails — from the repair call. -/
theorem computeEntries_afterRepair {up raw fixResp contResp : String}
    {es0 : List JVal} {calls0 : List Call}
    (h0 : (parse_json raw = some es0 ∧ calls0 = [Call.initial up]) ∨
      ∃ e0, json_loads (clean_json_response raw) = .error e0 ∧
        parse_json fixResp = some es0 ∧
        calls0 = [Call.initial up,
          Call.fix (fixPromptOf e0 (pyTake raw 8000))]) :
    computeEntries up raw fixResp contResp =
      truncationStage raw contResp es0 calls0 := by
  unfold computeEntries
  rcases h0 with ⟨hp, rfl⟩ | ⟨e0, hl, hf, rfl⟩
  · rw [hp]
  · have hparse : parse_json raw = none := by
      unfold parse_json
      rw [hl]
    rw [hparse, hl, hf]

theorem truncationStage_cont {raw contResp : String} {es0 : List JVal}
    {calls0 : List Call} {c : Char}
    (h1 : (pyRstrip raw).data.getLast? = some c) (h2 : c ≠ ']') :
    truncationStage raw contResp es0 calls0 =
      (.ok (mergeStage raw contResp es0),
       calls0 ++ [Call.cont (contPromptOf (pyTakeRight raw 500))]) := by
  unfold truncationStage
  rw [h1]
  show (if c = ']' then _ else _) = _
  rw [if_neg h2]

/-- C5: when the (rstripped) raw response does not end in `]`, the
orchestrator issues a continuation call; the entries `es0` it holds at
that point come from the initial parse or, for a genuinely truncated
response whose strict parse failed, from the repair call.  With a
continuation parsing to a non-empty list `ces`, a successful salvage
(truncate the cleaned raw at the last `}` and close the array) yields
salvaged ++ continuation; if the salvage decode fails, the continuation
alone is kept only when it has more than 10 entries, and otherwise the
pre-truncation parse result `es0` is kept as-is. -/
theorem truncation_continuation_merge (up raw fixResp contResp : String)
    (es0 ces : List JVal) (calls0 : List Call) (c : Char)
    (h0 : (parse_json raw = some es0 ∧ calls0 = [Call.initial up]) ∨
      ∃ e0, json_loads (clean_json_response raw) = .error e0 ∧
        parse_json fixResp = some es0 ∧
        calls0 = [Call.initial up,
          Call.fix (fixPromptOf e0 (pyTake raw 8000))])
    (h1 : (pyRstrip raw).data.getLast? = some c)
    (h2 : c ≠ ']')
    (h3 : parse_json contResp = some ces)
    (h4 : ces ≠ []) :
    (computeEntries up raw fixResp contResp).2 =
      calls0 ++ [Call.cont (contPromptOf (pyTakeRight raw 500))] ∧
    (∀ (p : Nat) (bs : List JVal),
      pyRfind (clean_json_response raw) '\x7d' = (p : Int) → 0 < p →
      json_loads (pyTake (clean_json_response raw) (p + 1) ++ "]") =
        .ok (JVal.list bs) →
      (computeEntries up raw fixResp contResp).1 = .ok (bs ++ ces)) ∧
    (∀ (p : Nat) (err : String),
      pyRfind (clean_json_response raw) '\x7d' = (p : Int) → 0 < p →
      json_loads (pyTake (clean_json_response raw) (p + 1) ++ "]") =
        .error err →
      (10 < ces.length → (computeEntries up raw fixResp contResp).1 = .ok ces) ∧
      (ces.length ≤ 10 → (computeEntries up raw fixResp contResp).1 = .ok es0)) := by
  have hce := (@computeEntries_afterRepair up raw fixResp contResp es0 calls0 h0).trans
    (@truncationStage_cont raw contResp es0 calls0 c h1 h2)
  refine ⟨by rw [hce], ?_, ?_⟩
  · intro p bs hrf hp hjs
    rw [hce]
    rw [mergeStage_salvage_ok h3 h4 hrf hp hjs]
  · intro p err hrf hp hjs
    have hm := @mergeStage_salvage_error raw contResp es0 ces p err h3 h4 hrf hp hjs
    constructor
    · intro hlen
      rw [hce, hm, if_pos hlen]
    · intro hlen
      rw [hce, hm, if_neg (by omega)]

theorem truncation_continuation_merge_witness :
    (computeEntries "u" "[\x7b\"a\":1\x7d," "[\x7b\"a\":1\x7d]"
        "[\x7b\"b\":2\x7d]").1 =
      .ok ([JVal.obj [("a", JVal.int 1)]] ++ [JVal.obj [("b", JVal.int 2)]]) :=
  ((truncation_continuation_merge "u" "[\x7b\"a\":1\x7d," "[\x7b\"a\":1\x7d]"
      "[\x7b\"b\":2\x7d]"
      [JVal.obj [("a", JVal.int 1)]] [JVal.obj [("b", JVal.int 2)]]
      [Call.initial "u",
        Call.fix (fixPromptOf "Expecting value" (pyTake "[\x7b\"a\":1\x7d," 8000))] ','
      (Or.inr ⟨"Expecting value", rfl, rfl, rfl⟩)
      rfl (by decide) rfl (by decide)).2.1)
    7 [JVal.obj [("a", JVal.int 1)]] rfl (by decide) rfl

/-! ### C10: fenced complete arrays trigger the truncation path -/

theorem lastIdx_concat2 : ∀ pre : List Char,
    lastIdx '\x7d' (pre ++ ['\x7d', ']']) = some pre.length := by
  intro pre
  induction pre with
  | nil => rfl
  | cons x xs ih => simp [lastIdx, ih]

theorem take_before_close (pre : List Char) :
    (pre ++ ['\x7d', ']']).take (pre.length + 1) = pre ++ ['\x7d'] := by
  rw [show pre ++ ['\x7d', ']'] = (pre ++ ['\x7d']) ++ [']'] by simp]
  exact List.take_left' (by simp)

/-- C10: a complete well-formed JSON array wrapped in markdown fences
(raw text ending in a backtick, not `]`) still enters the truncation
path: a continuation call is issued, the salvage reproduces the complete
original list, and a non-empty continuation is appended to it, so the
result duplicates content although nothing was truncated. -/
theorem fenced_array_duplication (up raw fixResp contResp body : String)
    (pre : List Char) (orig ces : List JVal)
    (hraw : raw = "\x60\x60\x60json\n" ++ body ++ "\n\x60\x60\x60")
    (hb1 : body.data ≠ [])
    (hb2 : body.data.dropWhile isPySpace = body.data)
    (hb3 : body.data.reverse.dropWhile isPySpace = body.data.reverse)
    (hb4 : stripCommas body = body)
    (hdata : body.data = pre ++ ['\x7d', ']'])
    (hpre : pre ≠ [])
    (hparse : json_loads body = .ok (JVal.list orig))
    (hcont : parse_json contResp = some ces) (hne : ces ≠ []) :
    (computeEntries up raw fixResp contResp).1 = .ok (orig ++ ces) ∧
    (computeEntries up raw fixResp contResp).2 =
      [Call.initial up, Call.cont (contPromptOf (pyTakeRight raw 500))] := by
  have hclean : clean_json_response raw = body := by
    rw [hraw, clean_fenced body hb1 hb2 hb3, hb4]
  have h0 : parse_json raw = some orig := by
    unfold parse_json
    rw [hclean, hparse]
  have hrev : raw.data.reverse = '\x60' ::
      ("\x60\x60\x60json\n".data ++ body.data ++ ['\n', '\x60', '\x60']).reverse := by
    rw [hraw]
    rw [show ("\x60\x60\x60json\n" ++ body ++ "\n\x60\x60\x60").data =
        ("\x60\x60\x60json\n".data ++ body.data ++ ['\n', '\x60', '\x60']) ++ ['\x60'] by
      simp [String.data_append]]
    simp
  have h1 : (pyRstrip raw).data.getLast? = some '\x60' := by
    show (raw.data.reverse.dropWhile isPySpace).reverse.getLast? = some '\x60'
    rw [hrev, List.dropWhile_cons, if_neg (by decide), List.getLast?_reverse]
    rfl
  have hrf : pyRfind (clean_json_response raw) '\x7d' = ((pre.length : Nat) : Int) := by
    rw [hclean]
    unfold pyRfind
    rw [hdata, lastIdx_concat2]
  have hp : 0 < pre.length := List.length_pos.mpr hpre
  have hstr : pyTake (clean_json_response raw) (pre.length + 1) ++ "]" = body := by
    rw [hclean]
    apply str_ext
    rw [String.data_append]
    show (body.data.take (pre.length + 1)) ++ [']'] = body.data
    rw [hdata, take_before_close]
    simp
  have hjs : json_loads (pyTake (clean_json_response raw) (pre.length + 1) ++ "]") =
      .ok (JVal.list orig) := by
    rw [hstr]
    exact hparse
  have hce := @computeEntries_truncation up raw fixResp contResp orig '\x60' h0 h1 (by decide)
  constructor
  · rw [hce]
    show Except.ok (mergeStage raw contResp orig) = _
    rw [mergeStage_salvage_ok hcont hne hrf hp hjs]
  · rw [hce]

theorem fenced_array_duplication_witness :
    (computeEntries "u" "\x60\x60\x60json\n[\x7b\"x\":1\x7d,\x7b\"y\":2\x7d]\n\x60\x60\x60"
        "f" "[\x7b\"x\":1\x7d]").1 =
      .ok ([JVal.obj [("x", JVal.int 1)], JVal.obj [("y", JVal.int 2)]] ++
        [JVal.obj [("x", JVal.int 1)]]) :=
  (fenced_array_duplication "u"
    "\x60\x60\x60json\n[\x7b\"x\":1\x7d,\x7b\"y\":2\x7d]\n\x60\x60\x60" "f"
    "[\x7b\"x\":1\x7d]" "[\x7b\"x\":1\x7d,\x7b\"y\":2\x7d]"
    ("[\x7b\"x\":1\x7d,\x7b\"y\":2".data)
    [JVal.obj [("x", JVal.int 1)], JVal.obj [("y", JVal.int 2)]]
    [JVal.obj [("x", JVal.int 1)]]
    rfl (by decide) (by decide) (by decide) (by decide) (by decide)
    (by decide) rfl rfl (by decide)).1
